import Mathlib

/-!
# ISPIF controller (`msm_ispif.c`): shallow embedding and verified properties

The driver state `struct ispif_device` becomes the record `ispif_device`; every
driver function becomes a pure function that takes the device and returns the
new device (and the return code where the C function has one).

* Machine words are `Nat`; every place where the C code truncates (`uint32_t`,
  `uint16_t`, `uint8_t`) carries an explicit `%`.
* Memory-mapped registers are a map from byte offset (relative to
  `ispif->base`) to value, together with the chronological list of writes.
* Results of the external services (clock enable, `ioremap`, `request_irq`, the
  outcome of a blocking wait) are explicit arguments.
* The macros of the headers `msm_ispif.h` and `msm_ispif_hwreg_v2.h` are not
  part of the sources; they are the fields of the parameter record
  `ispif_hwreg`, and theorems quantify over it.
-/

namespace Ispif

/-! ## Constants -/

/-- Linux errno values used by the driver (returned negated). -/
def EPERM : Int := 1
/-- Linux errno `EIO`. -/
def EIO : Int := 5
/-- Linux errno `ENOMEM`. -/
def ENOMEM : Int := 12
/-- Linux errno `EBUSY`. -/
def EBUSY : Int := 16
/-- Linux errno `ENODEV`. -/
def ENODEV : Int := 19
/-- Linux errno `EINVAL`. -/
def EINVAL : Int := 22

/-- Modelled from the spec: `enum msm_ispif_vfe_intf` is declared in the absent
header `msm_ispif.h`; the spec gives VfeInstance as the enum VFE0, VFE1, and the
source multiplies the value by `8` and by `0x200`. -/
def VFE0 : Nat := 0
/-- Modelled from the spec: second member of `enum msm_ispif_vfe_intf`. -/
def VFE1 : Nat := 1
/-- Modelled from the spec: number of members of `enum msm_ispif_vfe_intf`. -/
def VFE_MAX : Nat := 2

/-- Modelled from the spec: `enum msm_ispif_intftype` is declared in the absent
header `msm_ispif.h`: five lanes followed by `INTF_MAX`. The numbering follows
the order of the `switch` statements of the source; the theorems only use that
the five values are distinct and below `INTF_MAX`. -/
def PIX0 : Nat := 0
/-- Modelled from the spec: lane `RDI0` of `enum msm_ispif_intftype`. -/
def RDI0 : Nat := 1
/-- Modelled from the spec: lane `PIX1` of `enum msm_ispif_intftype`. -/
def PIX1 : Nat := 2
/-- Modelled from the spec: lane `RDI1` of `enum msm_ispif_intftype`. -/
def RDI1 : Nat := 3
/-- Modelled from the spec: lane `RDI2` of `enum msm_ispif_intftype`. -/
def RDI2 : Nat := 4
/-- Modelled from the spec: number of lanes. -/
def INTF_MAX : Nat := 5

/-- The three frame-boundary commands (`#define`s at the top of the source). -/
def ISPIF_INTF_CMD_DISABLE_FRAME_BOUNDARY : Nat := 0x00
/-- Command `01`: enable at the next frame boundary. -/
def ISPIF_INTF_CMD_ENABLE_FRAME_BOUNDARY : Nat := 0x01
/-- Command `10`: disable immediately. -/
def ISPIF_INTF_CMD_DISABLE_IMMEDIATELY : Nat := 0x02

/-- The macros of the absent headers (`CSID_VERSION_*` of `msm_ispif.h`, register
offsets, reset strobes and interrupt masks of `msm_ispif_hwreg_v2.h`), taken as
parameters. Field names are the macro names. -/
structure ispif_hwreg where
  CSID_VERSION_V2 : Nat
  CSID_VERSION_V3 : Nat
  ISPIF_RST_CMD_ADDR : Nat
  ISPIF_RST_CMD_1_ADDR : Nat
  ISPIF_INTF_CMD_ADDR : Nat
  ISPIF_INTF_CMD_1_ADDR : Nat
  ISPIF_INPUT_SEL_ADDR : Nat
  ISPIF_PIX_0_INTF_CID_MASK_ADDR : Nat
  ISPIF_RDI_0_INTF_CID_MASK_ADDR : Nat
  ISPIF_PIX_1_INTF_CID_MASK_ADDR : Nat
  ISPIF_RDI_1_INTF_CID_MASK_ADDR : Nat
  ISPIF_RDI_2_INTF_CID_MASK_ADDR : Nat
  ISPIF_PIX_0_STATUS_ADDR : Nat
  ISPIF_RDI_0_STATUS_ADDR : Nat
  ISPIF_PIX_1_STATUS_ADDR : Nat
  ISPIF_RDI_1_STATUS_ADDR : Nat
  ISPIF_RDI_2_STATUS_ADDR : Nat
  ISPIF_IRQ_MASK_ADDR : Nat
  ISPIF_IRQ_MASK_1_ADDR : Nat
  ISPIF_IRQ_MASK_2_ADDR : Nat
  ISPIF_IRQ_CLEAR_ADDR : Nat
  ISPIF_IRQ_CLEAR_1_ADDR : Nat
  ISPIF_IRQ_CLEAR_2_ADDR : Nat
  ISPIF_IRQ_STATUS_ADDR : Nat
  ISPIF_IRQ_STATUS_1_ADDR : Nat
  ISPIF_IRQ_STATUS_2_ADDR : Nat
  ISPIF_IRQ_GLOBAL_CLEAR_CMD_ADDR : Nat
  ISPIF_IRQ_GLOBAL_CLEAR_CMD : Nat
  ISPIF_IRQ_STATUS_MASK : Nat
  ISPIF_IRQ_STATUS_1_MASK : Nat
  ISPIF_IRQ_STATUS_2_MASK : Nat
  ISPIF_IRQ_STATUS_PIX_SOF_MASK : Nat
  ISPIF_IRQ_STATUS_RDI0_SOF_MASK : Nat
  ISPIF_IRQ_STATUS_RDI1_SOF_MASK : Nat
  ISPIF_IRQ_STATUS_RDI2_SOF_MASK : Nat
  RESET_DONE_IRQ : Nat
  STROBED_RST_EN : Nat
  PIX_0_VFE_RST_STB : Nat
  PIX_0_CSID_RST_STB : Nat
  RDI_0_VFE_RST_STB : Nat
  RDI_0_CSID_RST_STB : Nat
  PIX_1_VFE_RST_STB : Nat
  PIX_1_CSID_RST_STB : Nat
  RDI_1_VFE_RST_STB : Nat
  RDI_1_CSID_RST_STB : Nat
  RDI_2_VFE_RST_STB : Nat
  RDI_2_CSID_RST_STB : Nat
  ISPIF_RST_CMD_MASK : Nat
  ISPIF_RST_CMD_1_MASK : Nat

/-- Modelled from the spec: the register header `msm_ispif_hwreg_v2.h` and the
`CSID_VERSION_*` macros are absent from the sources. This is one assignment of
the parameters (versions ordered V2 below V3, per-VFE register blocks at stride
`0x200`, one bit per reset strobe) on which the definitions are evaluated. -/
def hwreg_v2 : ispif_hwreg where
  CSID_VERSION_V2 := 0x20000
  CSID_VERSION_V3 := 0x30000
  ISPIF_RST_CMD_ADDR := 0x008
  ISPIF_RST_CMD_1_ADDR := 0x00C
  ISPIF_INTF_CMD_ADDR := 0x248
  ISPIF_INTF_CMD_1_ADDR := 0x24C
  ISPIF_INPUT_SEL_ADDR := 0x244
  ISPIF_PIX_0_INTF_CID_MASK_ADDR := 0x254
  ISPIF_RDI_0_INTF_CID_MASK_ADDR := 0x264
  ISPIF_PIX_1_INTF_CID_MASK_ADDR := 0x258
  ISPIF_RDI_1_INTF_CID_MASK_ADDR := 0x268
  ISPIF_RDI_2_INTF_CID_MASK_ADDR := 0x26C
  ISPIF_PIX_0_STATUS_ADDR := 0x2C0
  ISPIF_RDI_0_STATUS_ADDR := 0x2D0
  ISPIF_PIX_1_STATUS_ADDR := 0x2C4
  ISPIF_RDI_1_STATUS_ADDR := 0x2D4
  ISPIF_RDI_2_STATUS_ADDR := 0x2D8
  ISPIF_IRQ_MASK_ADDR := 0x208
  ISPIF_IRQ_MASK_1_ADDR := 0x20C
  ISPIF_IRQ_MASK_2_ADDR := 0x210
  ISPIF_IRQ_CLEAR_ADDR := 0x230
  ISPIF_IRQ_CLEAR_1_ADDR := 0x234
  ISPIF_IRQ_CLEAR_2_ADDR := 0x238
  ISPIF_IRQ_STATUS_ADDR := 0x21C
  ISPIF_IRQ_STATUS_1_ADDR := 0x220
  ISPIF_IRQ_STATUS_2_ADDR := 0x224
  ISPIF_IRQ_GLOBAL_CLEAR_CMD_ADDR := 0x01C
  ISPIF_IRQ_GLOBAL_CLEAR_CMD := 0x1
  ISPIF_IRQ_STATUS_MASK := 0x0A493249
  ISPIF_IRQ_STATUS_1_MASK := 0x02493249
  ISPIF_IRQ_STATUS_2_MASK := 0x00001249
  ISPIF_IRQ_STATUS_PIX_SOF_MASK := 0x249
  ISPIF_IRQ_STATUS_RDI0_SOF_MASK := 0x492000
  ISPIF_IRQ_STATUS_RDI1_SOF_MASK := 0x492000
  ISPIF_IRQ_STATUS_RDI2_SOF_MASK := 0x249
  RESET_DONE_IRQ := 0x8000000
  STROBED_RST_EN := 0x1
  PIX_0_VFE_RST_STB := 0x10
  PIX_0_CSID_RST_STB := 0x8
  RDI_0_VFE_RST_STB := 0x80
  RDI_0_CSID_RST_STB := 0x40
  PIX_1_VFE_RST_STB := 0x400
  PIX_1_CSID_RST_STB := 0x200
  RDI_1_VFE_RST_STB := 0x2000
  RDI_1_CSID_RST_STB := 0x1000
  RDI_2_VFE_RST_STB := 0x80000
  RDI_2_CSID_RST_STB := 0x40000
  ISPIF_RST_CMD_MASK := 0xFE1C77FF
  ISPIF_RST_CMD_1_MASK := 0xFFFFFFFF

/-! ## Data model -/

/-- Truncation to `uint32_t`. -/
def u32 (x : Nat) : Nat := x % 4294967296

/-- Truncation to `uint16_t`. -/
def u16 (x : Nat) : Nat := x % 65536

/-- Truncation to `uint8_t`. -/
def u8 (x : Nat) : Nat := x % 256

/-- C's `~x` on a value converted to `uint32_t`. -/
def not32 (x : Nat) : Nat := 0xFFFFFFFF ^^^ u32 x

/-- Power state (`ispif->ispif_state`). -/
inductive ispif_state_t where
  | ISPIF_POWER_UP
  | ISPIF_POWER_DOWN
deriving DecidableEq, Repr

/-- One element of `ispif->applied_intf_cmd[]`: the primary (`intf_cmd`) and
secondary (`intf_cmd1`) command words. -/
structure ispif_intf_cmd where
  intf_cmd : Nat
  intf_cmd1 : Nat
deriving DecidableEq, Repr

/-- The clocks named in `ispif_8960_clk_info` and `ispif_8974_clk_info`. -/
inductive clk_name where
  | csi_pix_clk
  | csi_rdi_clk
  | csi_pix1_clk
  | csi_rdi1_clk
  | csi_rdi2_clk
  | camss_vfe_vfe_clk
  | camss_csi_vfe_clk
  | camss_vfe_vfe_clk1
  | camss_csi_vfe_clk1
deriving DecidableEq, Repr

/-- Clock table `ispif_8960_clk_info`. -/
def ispif_8960_clk_info : List clk_name :=
  [.csi_pix_clk, .csi_rdi_clk, .csi_pix1_clk, .csi_rdi1_clk, .csi_rdi2_clk]

/-- Clock table `ispif_8974_clk_info`. -/
def ispif_8974_clk_info : List clk_name :=
  [.camss_vfe_vfe_clk, .camss_csi_vfe_clk, .camss_vfe_vfe_clk1, .camss_csi_vfe_clk1]

/-- One routing entry (`struct msm_ispif_params_entry`): `cids` holds the first
`num_cids` elements of the C array. -/
structure msm_ispif_params_entry where
  intftype : Nat
  cids : List Nat
  csid : Nat
deriving DecidableEq, Repr

/-- A request (`struct msm_ispif_param_data`): `entries` holds the first `num`
elements of the C array. -/
structure msm_ispif_param_data where
  vfe_intf : Nat
  entries : List msm_ispif_params_entry
deriving DecidableEq, Repr

/-- The device (`struct ispif_device`) together with the state of the external
collaborators it drives.

* `regs`, `wlog`: register file behind `ispif->base` and the list of register
  writes in the order they were issued (address, value);
* `base_mapped`, `irq_requested`: whether `ioremap` / `request_irq` are in effect;
* `ispif_clk`: which slots of `ispif->ispif_clk[]` hold a clock handle;
* `clk_refs`: enable count of every named clock (Clock Port);
* `clk_rate`: last rate requested through `clk_set_rate` for a clock slot;
* `reset_complete`: the `done` counter of the completion `reset_complete`. -/
structure ispif_device where
  ispif_state : ispif_state_t
  csid_version : Nat
  applied_intf_cmd : Nat → ispif_intf_cmd
  sof_count : Nat → Nat → Nat
  open_cnt : Nat
  reset_complete : Nat
  regs : Nat → Nat
  wlog : List (Nat × Nat)
  base_mapped : Bool
  irq_requested : Bool
  ispif_clk : Nat → Bool
  clk_refs : clk_name → Nat
  clk_rate : Nat → Nat

/-! ## External services -/

/-- Register write `msm_camera_io_w(data, base + addr)`. -/
def msm_camera_io_w (data addr : Nat) (s : ispif_device) : ispif_device :=
  { s with regs := Function.update s.regs addr data, wlog := s.wlog ++ [(addr, data)] }

/-- Register write with barrier `msm_camera_io_w_mb(data, base + addr)`; in a
sequential model it is the same state change as `msm_camera_io_w`. -/
def msm_camera_io_w_mb (data addr : Nat) (s : ispif_device) : ispif_device :=
  msm_camera_io_w data addr s

/-- Register read `msm_camera_io_r(base + addr)`, a 32-bit value. -/
def msm_camera_io_r (addr : Nat) (s : ispif_device) : Nat :=
  u32 (s.regs addr)

/-- Modelled from the spec: `reset_signal` is a one-shot completion primitive
(kernel `struct completion`, not part of the sources). A pending completion
(`done > 0`) is consumed and the wait succeeds at once; otherwise the outcome is
`lrc`, supplied by the environment: positive when the interrupt reactor fires the
completion within 500 ms (the wait consumes it), `0` on timeout, negative when
the wait is interrupted. -/
def wait_for_completion_interruptible_timeout (lrc : Int) (s : ispif_device) :
    Int × ispif_device :=
  if 0 < s.reset_complete then (1, { s with reset_complete := s.reset_complete - 1 })
  else (lrc, s)

/-- Modelled from the spec: `init_completion` re-arms the completion (no pending
completion). -/
def init_completion (s : ispif_device) : ispif_device :=
  { s with reset_complete := 0 }

/-- Modelled from the spec: `complete` records one pending completion. -/
def complete (s : ispif_device) : ispif_device :=
  { s with reset_complete := s.reset_complete + 1 }

/-- Modelled from the spec: Clock Port `enable(names[]) -> Result` /
`disable(names[])` (`msm_cam_clk_enable` of the absent `msm_camera_io_util`).
Enabling the first `num_clk` clocks of `clk_info` either succeeds (`clk_rc = 0`:
each named clock gains one reference and its slot in `ispif_clk[]` is filled) or
fails with `clk_rc` and leaves no clock enabled; disabling drops one reference
of each. -/
def msm_cam_clk_enable (clk_rc : Int) (s : ispif_device) (clk_info : List clk_name)
    (num_clk : Nat) (enable : Bool) : Int × ispif_device :=
  if enable then
    if clk_rc = 0 then
      (0, { s with
              clk_refs := fun c => s.clk_refs c + (clk_info.take num_clk).count c,
              ispif_clk := fun i => if i < num_clk then true else s.ispif_clk i })
    else (clk_rc, s)
  else
    (0, { s with clk_refs := fun c => s.clk_refs c - (clk_info.take num_clk).count c })

/-- Results of the external services used by `msm_ispif_init`: return code of
the clock enable, whether `ioremap` returns a mapping, return code of
`request_irq`, and the outcome of the reset wait. -/
structure init_env where
  clk_rc : Int
  ioremap_ok : Bool
  irq_rc : Int
  lrc : Int

/-! ## Driver functions -/

/-- Source `msm_ispif_is_intf_valid` (`intf_type` is a `uint8_t` parameter). -/
def msm_ispif_is_intf_valid (hw : ispif_hwreg) (csid_version intf_type : Nat) : Bool :=
  if csid_version ≤ hw.CSID_VERSION_V2 ∧ u8 intf_type ≠ VFE0 then false else true

/-- One iteration of the loop of `msm_ispif_intf_reset`: clears the lane's
start-of-frame counter and adds the lane's strobes to `data`; an unknown lane
sets `rc = -EINVAL`. The accumulator is (device, data, rc). -/
def msm_ispif_intf_reset_entry (hw : ispif_hwreg) (vfe_intf : Nat)
    (acc : ispif_device × Nat × Int) (e : msm_ispif_params_entry) :
    ispif_device × Nat × Int :=
  let s := acc.1
  let data := acc.2.1
  let rc := acc.2.2
  let intf_type := e.intftype
  let s1 : ispif_device :=
    { s with
        sof_count := Function.update s.sof_count vfe_intf
                       (Function.update (s.sof_count vfe_intf) intf_type 0) }
  if intf_type = PIX0 then
    (s1, data ||| (hw.PIX_0_VFE_RST_STB ||| hw.PIX_0_CSID_RST_STB), rc)
  else if intf_type = RDI0 then
    (s1, data ||| (hw.RDI_0_VFE_RST_STB ||| hw.RDI_0_CSID_RST_STB), rc)
  else if intf_type = PIX1 then
    (s1, data ||| (hw.PIX_1_VFE_RST_STB ||| hw.PIX_1_CSID_RST_STB), rc)
  else if intf_type = RDI1 then
    (s1, data ||| (hw.RDI_1_VFE_RST_STB ||| hw.RDI_1_CSID_RST_STB), rc)
  else if intf_type = RDI2 then
    (s1, data ||| (hw.RDI_2_VFE_RST_STB ||| hw.RDI_2_CSID_RST_STB), rc)
  else
    (s1, data, -EINVAL)

/-- Source `msm_ispif_intf_reset`; `lrc` is the outcome of the wait. -/
def msm_ispif_intf_reset (hw : ispif_hwreg) (lrc : Int) (s : ispif_device)
    (params : msm_ispif_param_data) : Int × ispif_device :=
  let acc := params.entries.foldl (msm_ispif_intf_reset_entry hw params.vfe_intf)
    (s, hw.STROBED_RST_EN, 0)
  let s1 := acc.1
  let data := acc.2.1
  let rc := acc.2.2
  if data > 0x1 then
    let s2 :=
      if params.vfe_intf = VFE0 then msm_camera_io_w data hw.ISPIF_RST_CMD_ADDR s1
      else msm_camera_io_w data hw.ISPIF_RST_CMD_1_ADDR s1
    let w := wait_for_completion_interruptible_timeout lrc s2
    if w.1 < 0 ∨ w.1 = 0 then (- EIO, w.2) else (rc, w.2)
  else (rc, s1)

/-- The first half of `msm_ispif_reset`: clear `sof_count` and write the reset
command register(s). -/
def msm_ispif_reset_cmd (hw : ispif_hwreg) (s : ispif_device) : ispif_device :=
  let s1 : ispif_device := { s with sof_count := fun _ _ => 0 }
  let s2 := msm_camera_io_w hw.ISPIF_RST_CMD_MASK hw.ISPIF_RST_CMD_ADDR s1
  if s2.csid_version = hw.CSID_VERSION_V3 then
    msm_camera_io_w_mb hw.ISPIF_RST_CMD_1_MASK hw.ISPIF_RST_CMD_1_ADDR s2
  else s2

/-- Source `msm_ispif_reset`; `lrc` is the outcome of the wait. -/
def msm_ispif_reset (hw : ispif_hwreg) (lrc : Int) (s : ispif_device) :
    Int × ispif_device :=
  let s3 := msm_ispif_reset_cmd hw s
  let w := wait_for_completion_interruptible_timeout lrc s3
  if w.1 < 0 ∨ w.1 = 0 then (- EIO, w.2) else (0, w.2)

/-- Source `msm_ispif_sel_csid_core` (`intftype`, `csid`, `vfe_intf` are
`uint8_t` parameters). `clk_set_rate` records the requested rate; its return
code is only logged by the source. -/
def msm_ispif_sel_csid_core (hw : ispif_hwreg) (s : ispif_device)
    (intftype csid vfe_intf : Nat) : ispif_device :=
  let intftype := u8 intftype
  let csid := u8 csid
  let vfe_intf := u8 vfe_intf
  if msm_ispif_is_intf_valid hw s.csid_version vfe_intf = false then s
  else if s.csid_version ≤ hw.CSID_VERSION_V2 then
    if s.ispif_clk intftype = false then s
    else { s with clk_rate := Function.update s.clk_rate intftype csid }
  else
    let data := msm_camera_io_r (hw.ISPIF_INPUT_SEL_ADDR + 0x200 * vfe_intf) s
    let data :=
      if intftype = PIX0 then (data &&& not32 (1 <<< 1 ||| 1 <<< 0)) ||| csid
      else if intftype = RDI0 then (data &&& not32 (1 <<< 5 ||| 1 <<< 4)) ||| (csid <<< 4)
      else if intftype = PIX1 then (data &&& not32 (1 <<< 9 ||| 1 <<< 8)) ||| (csid <<< 8)
      else if intftype = RDI1 then (data &&& not32 (1 <<< 13 ||| 1 <<< 12)) ||| (csid <<< 12)
      else if intftype = RDI2 then (data &&& not32 (1 <<< 21 ||| 1 <<< 20)) ||| (csid <<< 20)
      else data
    if data ≠ 0 then
      msm_camera_io_w_mb data (hw.ISPIF_INPUT_SEL_ADDR + 0x200 * vfe_intf) s
    else s

/-- The `switch` of `msm_ispif_enable_intf_cids`: offset of a lane's CID-mask
register within a VFE block; `none` is the `default` branch. -/
def intf_cid_mask_addr (hw : ispif_hwreg) (intftype : Nat) : Option Nat :=
  if intftype = PIX0 then some hw.ISPIF_PIX_0_INTF_CID_MASK_ADDR
  else if intftype = RDI0 then some hw.ISPIF_RDI_0_INTF_CID_MASK_ADDR
  else if intftype = PIX1 then some hw.ISPIF_PIX_1_INTF_CID_MASK_ADDR
  else if intftype = RDI1 then some hw.ISPIF_RDI_1_INTF_CID_MASK_ADDR
  else if intftype = RDI2 then some hw.ISPIF_RDI_2_INTF_CID_MASK_ADDR
  else none

/-- Source `msm_ispif_enable_intf_cids` (`intftype`, `vfe_intf`, `enable` are
`uint8_t` parameters, `cid_mask` is `uint16_t`). The `default` branch of the
`switch` (`BUG_ON(1); return`) leaves the device as it is. -/
def msm_ispif_enable_intf_cids (hw : ispif_hwreg) (s : ispif_device)
    (intftype cid_mask vfe_intf enable : Nat) : ispif_device :=
  let intftype := u8 intftype
  let cid_mask := u16 cid_mask
  let vfe_intf := u8 vfe_intf
  let enable := u8 enable
  if msm_ispif_is_intf_valid hw s.csid_version vfe_intf = false then s
  else
    match intf_cid_mask_addr hw intftype with
    | none => s
    | some off =>
      let intf_addr := off + 0x200 * vfe_intf
      let data := msm_camera_io_r intf_addr s
      let data := if enable ≠ 0 then data ||| cid_mask else data &&& not32 cid_mask
      msm_camera_io_w_mb data intf_addr s

/-- The `switch` of `msm_ispif_validate_intf_status`: offset of a lane's status
register within a VFE block; `none` when no `case` matches. -/
def intf_status_addr (hw : ispif_hwreg) (intftype : Nat) : Option Nat :=
  if intftype = PIX0 then some hw.ISPIF_PIX_0_STATUS_ADDR
  else if intftype = RDI0 then some hw.ISPIF_RDI_0_STATUS_ADDR
  else if intftype = PIX1 then some hw.ISPIF_PIX_1_STATUS_ADDR
  else if intftype = RDI1 then some hw.ISPIF_RDI_1_STATUS_ADDR
  else if intftype = RDI2 then some hw.ISPIF_RDI_2_STATUS_ADDR
  else none

/-- Source `msm_ispif_validate_intf_status` (`intftype`, `vfe_intf` are
`uint8_t` parameters); only reads registers. -/
def msm_ispif_validate_intf_status (hw : ispif_hwreg) (s : ispif_device)
    (intftype vfe_intf : Nat) : Int :=
  let intftype := u8 intftype
  let vfe_intf := u8 vfe_intf
  if msm_ispif_is_intf_valid hw s.csid_version vfe_intf = false then -EINVAL
  else
    let data :=
      match intf_status_addr hw intftype with
      | none => 0
      | some off => msm_camera_io_r (off + 0x200 * vfe_intf) s
    if data &&& 0xf ≠ 0xf then -EBUSY else 0

/-- Source `msm_ispif_get_cids_mask_from_cfg`: the accumulator `cids_mask` is a
`uint16_t`. -/
def msm_ispif_get_cids_mask_from_cfg (entry : msm_ispif_params_entry) : Nat :=
  entry.cids.foldl (fun cids_mask cid => u16 (cids_mask ||| (1 <<< cid))) 0

/-- The `for` loop of `msm_ispif_config` over the remaining entries. -/
def msm_ispif_config_loop (hw : ispif_hwreg) (vfe_intf : Nat) :
    List msm_ispif_params_entry → ispif_device → Int × ispif_device
  | [], s => (0, s)
  | e :: es, s =>
    let intftype := e.intftype
    if intftype ≥ INTF_MAX ∨ vfe_intf ≥ VFE_MAX ∨
        (s.csid_version ≤ hw.CSID_VERSION_V2 ∧ vfe_intf > VFE0) then
      (-EINVAL, s)
    else
      let rc := msm_ispif_validate_intf_status hw s intftype vfe_intf
      if rc ≠ 0 then (rc, s)
      else
        let s1 := msm_ispif_sel_csid_core hw s intftype e.csid vfe_intf
        let cid_mask := msm_ispif_get_cids_mask_from_cfg e
        let s2 := msm_ispif_enable_intf_cids hw s1 intftype cid_mask vfe_intf 1
        msm_ispif_config_loop hw vfe_intf es s2

/-- The three writes of `msm_ispif_config` that mask all interrupts before the
loop. -/
def msm_ispif_config_quiesce (hw : ispif_hwreg) (s : ispif_device) : ispif_device :=
  let s := msm_camera_io_w 0x0 hw.ISPIF_IRQ_MASK_ADDR s
  let s := msm_camera_io_w 0x0 hw.ISPIF_IRQ_MASK_1_ADDR s
  msm_camera_io_w_mb 0x0 hw.ISPIF_IRQ_MASK_2_ADDR s

/-- The seven writes of `msm_ispif_config` after the loop. -/
def msm_ispif_config_unmask (hw : ispif_hwreg) (s : ispif_device) : ispif_device :=
  let s := msm_camera_io_w hw.ISPIF_IRQ_STATUS_MASK hw.ISPIF_IRQ_MASK_ADDR s
  let s := msm_camera_io_w hw.ISPIF_IRQ_STATUS_MASK hw.ISPIF_IRQ_CLEAR_ADDR s
  let s := msm_camera_io_w hw.ISPIF_IRQ_STATUS_1_MASK hw.ISPIF_IRQ_MASK_1_ADDR s
  let s := msm_camera_io_w hw.ISPIF_IRQ_STATUS_1_MASK hw.ISPIF_IRQ_CLEAR_1_ADDR s
  let s := msm_camera_io_w hw.ISPIF_IRQ_STATUS_2_MASK hw.ISPIF_IRQ_MASK_2_ADDR s
  let s := msm_camera_io_w hw.ISPIF_IRQ_STATUS_2_MASK hw.ISPIF_IRQ_CLEAR_2_ADDR s
  msm_camera_io_w_mb hw.ISPIF_IRQ_GLOBAL_CLEAR_CMD hw.ISPIF_IRQ_GLOBAL_CLEAR_CMD_ADDR s

/-- Source `msm_ispif_config`. -/
def msm_ispif_config (hw : ispif_hwreg) (s : ispif_device)
    (params : msm_ispif_param_data) : Int × ispif_device :=
  let vfe_intf := params.vfe_intf
  if msm_ispif_is_intf_valid hw s.csid_version vfe_intf = false then (-EINVAL, s)
  else
    let s1 := msm_ispif_config_quiesce hw s
    let r := msm_ispif_config_loop hw vfe_intf params.entries s1
    if r.1 ≠ 0 then r
    else (r.1, msm_ispif_config_unmask hw r.2)

/-- Body of the inner loop of `msm_ispif_intf_cmd` for one channel id: clears
the 2-bit field and ORs in `cmd_bits` (`uint32_t` arithmetic, `vc` is a
`uint8_t`). -/
def msm_ispif_intf_cmd_cid (cmd_bits vfe_intf intf_type : Nat)
    (a : ispif_intf_cmd) (cid : Nat) : ispif_intf_cmd :=
  let vc := u8 (cid % 4)
  if intf_type = RDI2 then
    let c1 := a.intf_cmd1 &&& not32 (0x3 <<< (vc * 2 + 8))
    let c1 := c1 ||| u32 (cmd_bits <<< (vc * 2 + 8))
    { a with intf_cmd1 := c1 }
  else
    let c0 := a.intf_cmd &&& not32 (0x3 <<< (vc * 2 + vfe_intf * 8))
    let c0 := c0 ||| u32 (cmd_bits <<< (vc * 2 + vfe_intf * 8))
    { a with intf_cmd := c0 }

/-- The nested loops of `msm_ispif_intf_cmd` acting on `applied_intf_cmd[vfe_intf]`. -/
def msm_ispif_intf_cmd_compose (cmd_bits vfe_intf : Nat)
    (entries : List msm_ispif_params_entry) (a : ispif_intf_cmd) : ispif_intf_cmd :=
  entries.foldl
    (fun a e => e.cids.foldl (msm_ispif_intf_cmd_cid cmd_bits vfe_intf e.intftype) a) a

/-- Source `msm_ispif_intf_cmd`. -/
def msm_ispif_intf_cmd (hw : ispif_hwreg) (s : ispif_device) (cmd_bits : Nat)
    (params : msm_ispif_param_data) : ispif_device :=
  let vfe_intf := params.vfe_intf
  if msm_ispif_is_intf_valid hw s.csid_version vfe_intf = false then s
  else
    let a := msm_ispif_intf_cmd_compose cmd_bits vfe_intf params.entries
      (s.applied_intf_cmd vfe_intf)
    let s1 : ispif_device :=
      { s with applied_intf_cmd := Function.update s.applied_intf_cmd vfe_intf a }
    let s2 :=
      if a.intf_cmd ≠ 0xFFFFFFFF then
        msm_camera_io_w_mb a.intf_cmd (hw.ISPIF_INTF_CMD_ADDR + 0x200 * vfe_intf) s1
      else s1
    if a.intf_cmd1 ≠ 0xFFFFFFFF then
      msm_camera_io_w_mb a.intf_cmd1 (hw.ISPIF_INTF_CMD_1_ADDR + 0x200 * vfe_intf) s2
    else s2

/-- Source `msm_ispif_stop_immediately`. -/
def msm_ispif_stop_immediately (hw : ispif_hwreg) (s : ispif_device)
    (params : msm_ispif_param_data) : Int × ispif_device :=
  let s1 := msm_ispif_intf_cmd hw s ISPIF_INTF_CMD_DISABLE_IMMEDIATELY params
  let s2 := params.entries.foldl
    (fun s e =>
      msm_ispif_enable_intf_cids hw s e.intftype (msm_ispif_get_cids_mask_from_cfg e)
        params.vfe_intf 0) s1
  (0, s2)

/-- Source `msm_ispif_start_frame_boundary`; `lrc` is the outcome of the reset
wait. -/
def msm_ispif_start_frame_boundary (hw : ispif_hwreg) (lrc : Int) (s : ispif_device)
    (params : msm_ispif_param_data) : Int × ispif_device :=
  let r := msm_ispif_intf_reset hw lrc s params
  if r.1 ≠ 0 then r
  else (r.1, msm_ispif_intf_cmd hw r.2 ISPIF_INTF_CMD_ENABLE_FRAME_BOUNDARY params)

/-- The clock group of a version: the `if` chain shared by `msm_ispif_init`
(enable and `error_clk`) and `msm_ispif_release`; `none` is the unsupported
version. -/
def ispif_clk_group (hw : ispif_hwreg) (csid_version : Nat) :
    Option (List clk_name × Nat) :=
  if csid_version < hw.CSID_VERSION_V2 then some (ispif_8960_clk_info, 2)
  else if csid_version = hw.CSID_VERSION_V2 then
    some (ispif_8960_clk_info, ispif_8960_clk_info.length)
  else if csid_version = hw.CSID_VERSION_V3 then
    some (ispif_8974_clk_info, ispif_8974_clk_info.length)
  else none

/-- Label `error_clk` of `msm_ispif_init`: disable the clock group of the stored
version (nothing for an unsupported version). -/
def msm_ispif_init_error_clk (hw : ispif_hwreg) (s : ispif_device) : ispif_device :=
  match ispif_clk_group hw s.csid_version with
  | some g => (msm_cam_clk_enable 0 s g.1 g.2 false).2
  | none => s

/-- Label `error_irq` of `msm_ispif_init`: `iounmap`, then `error_clk`. -/
def msm_ispif_init_error_irq (hw : ispif_hwreg) (s : ispif_device) : ispif_device :=
  msm_ispif_init_error_clk hw { s with base_mapped := false }

/-- Source `msm_ispif_init`. -/
def msm_ispif_init (hw : ispif_hwreg) (env : init_env) (s : ispif_device)
    (csid_version : Nat) : Int × ispif_device :=
  if s.ispif_state = ispif_state_t.ISPIF_POWER_UP then (-EPERM, s)
  else
    let s1 : ispif_device :=
      { s with
          applied_intf_cmd := Function.update
                                (Function.update s.applied_intf_cmd VFE0 ⟨0xFFFFFFFF, 0xFFFFFFFF⟩)
                                VFE1 ⟨0xFFFFFFFF, 0xFFFFFFFF⟩,
          sof_count := fun _ _ => 0,
          csid_version := csid_version }
    match ispif_clk_group hw s1.csid_version with
    | none => (0, s1)
    | some g =>
      let c := msm_cam_clk_enable env.clk_rc s1 g.1 g.2 true
      if c.1 ≠ 0 then (c.1, c.2)
      else
        let s2 : ispif_device := { c.2 with base_mapped := env.ioremap_ok }
        if s2.base_mapped = false then (-ENOMEM, msm_ispif_init_error_clk hw s2)
        else if env.irq_rc ≠ 0 then (env.irq_rc, msm_ispif_init_error_irq hw s2)
        else
          let s3 : ispif_device := { s2 with irq_requested := true }
          let s4 := init_completion s3
          let r := msm_ispif_reset hw env.lrc s4
          if r.1 = 0 then (r.1, { r.2 with ispif_state := ispif_state_t.ISPIF_POWER_UP })
          else
            let s5 : ispif_device := { r.2 with irq_requested := false }
            (r.1, msm_ispif_init_error_irq hw s5)

/-- Source `msm_ispif_release`; `lrc` is the outcome of the reset wait. -/
def msm_ispif_release (hw : ispif_hwreg) (lrc : Int) (s : ispif_device) : ispif_device :=
  if s.ispif_state ≠ ispif_state_t.ISPIF_POWER_UP then s
  else
    let r := msm_ispif_reset hw lrc s
    let s1 : ispif_device := { r.2 with irq_requested := false, base_mapped := false }
    let s2 := msm_ispif_init_error_clk hw s1
    { s2 with ispif_state := ispif_state_t.ISPIF_POWER_DOWN }

/-- A device as `ispif_probe` leaves it (zero-initialised, power down, no
opener), used to evaluate the definitions. -/
def probe_device : ispif_device where
  ispif_state := ispif_state_t.ISPIF_POWER_DOWN
  csid_version := 0
  applied_intf_cmd := fun _ => ⟨0, 0⟩
  sof_count := fun _ _ => 0
  open_cnt := 0
  reset_complete := 0
  regs := fun _ => 0
  wlog := []
  base_mapped := false
  irq_requested := false
  ispif_clk := fun _ => false
  clk_rate := fun _ => 0
  clk_refs := fun _ => 0

/-- The device after a successful `msm_ispif_init` on version V3 (both command
words of both VFEs hold the sentinel). -/
def init_done_v3 : ispif_device :=
  (msm_ispif_init hwreg_v2 ⟨0, true, 0, 1⟩ probe_device hwreg_v2.CSID_VERSION_V3).2

/-- The device after a successful `msm_ispif_init` on version V2. -/
def init_done_v2 : ispif_device :=
  (msm_ispif_init hwreg_v2 ⟨0, true, 0, 1⟩ probe_device hwreg_v2.CSID_VERSION_V2).2

/-- A freshly initialised V3 device on which every register reads `0x2F`: every
lane status is idle (low four bits set) and channel 5 is enabled in every
CID-mask register. -/
def idle_v3 : ispif_device :=
  { init_done_v3 with regs := fun _ => 0x2F }

/-- Address of the CID-mask register of lane `l` in the block of `vfe`
(`intf_addr` of `msm_ispif_enable_intf_cids`). -/
def cid_mask_reg (hw : ispif_hwreg) (vfe l : Nat) : Nat :=
  (intf_cid_mask_addr hw l).getD 0 + 0x200 * vfe

/-- Address of the status register of lane `l` in the block of `vfe` (read by
`msm_ispif_validate_intf_status`). -/
def status_reg (hw : ispif_hwreg) (vfe l : Nat) : Nat :=
  (intf_status_addr hw l).getD 0 + 0x200 * vfe

/-- Lane `l` of `vfe` reads idle: the low four bits of its status register are
all set. -/
def lane_idle (hw : ispif_hwreg) (s : ispif_device) (vfe l : Nat) : Prop :=
  msm_camera_io_r (status_reg hw vfe l) s &&& 0xf = 0xf

instance (hw : ispif_hwreg) (s : ispif_device) (vfe l : Nat) :
    Decidable (lane_idle hw s vfe l) := by
  unfold lane_idle; infer_instance

/-- The registers other than CID masks that `msm_ispif_config` writes on `vfe`. -/
def config_other_regs (hw : ispif_hwreg) (vfe : Nat) : List Nat :=
  [hw.ISPIF_INPUT_SEL_ADDR + 0x200 * vfe, hw.ISPIF_IRQ_MASK_ADDR, hw.ISPIF_IRQ_MASK_1_ADDR,
   hw.ISPIF_IRQ_MASK_2_ADDR, hw.ISPIF_IRQ_CLEAR_ADDR, hw.ISPIF_IRQ_CLEAR_1_ADDR,
   hw.ISPIF_IRQ_CLEAR_2_ADDR, hw.ISPIF_IRQ_GLOBAL_CLEAR_CMD_ADDR]

/-- Assumption on the register offsets of the absent header, for the block of
`vfe`: the CID-mask registers of the five lanes are pairwise distinct and are
none of the other registers written by `msm_ispif_config`; no lane status
register is a CID-mask register or one of those other registers. -/
def config_layout_ok (hw : ispif_hwreg) (vfe : Nat) : Prop :=
  (∀ l, l < INTF_MAX → ∀ l', l' < INTF_MAX →
      cid_mask_reg hw vfe l = cid_mask_reg hw vfe l' → l = l')
  ∧ (∀ l, l < INTF_MAX → cid_mask_reg hw vfe l ∉ config_other_regs hw vfe)
  ∧ (∀ l, l < INTF_MAX → ∀ l', l' < INTF_MAX →
      status_reg hw vfe l ≠ cid_mask_reg hw vfe l')
  ∧ (∀ l, l < INTF_MAX → status_reg hw vfe l ∉ config_other_regs hw vfe)

instance (hw : ispif_hwreg) (vfe : Nat) : Decidable (config_layout_ok hw vfe) := by
  unfold config_layout_ok; infer_instance

/-- A V3 device on which lane RDI0 of VFE0 is busy and all other lanes are idle. -/
def rdi0_busy_v3 : ispif_device :=
  { init_done_v3 with regs := fun a => if a = 0x2D0 then 0x20 else 0x2F }

/-- The 2-bit command field of a command word at bit offset `off`. -/
def cmd_field (word off : Nat) : Nat := (word >>> off) &&& 3

/-! ## Handles, input select, interrupt reactor -/

/-- Source `ispif_open_node`: always returns 0; the count is only incremented
when no opener is recorded. -/
def ispif_open_node (s : ispif_device) : Int × ispif_device :=
  if s.open_cnt > 0 then (0, s)
  else (0, { s with open_cnt := s.open_cnt + 1 })

/-- Source `ispif_close_node`; `lrc` is the outcome of the reset wait of
`msm_ispif_release`. -/
def ispif_close_node (hw : ispif_hwreg) (lrc : Int) (s : ispif_device) :
    Int × ispif_device :=
  if s.open_cnt = 0 then (-ENODEV, s)
  else
    let s1 : ispif_device := { s with open_cnt := s.open_cnt - 1 }
    if s1.open_cnt = 0 then (0, msm_ispif_release hw lrc s1)
    else (0, s1)

/-- One call on the handle surface: `acquire` is `ispif_open_node`, `release`
is `ispif_close_node` (with the outcome of the reset wait of that call). -/
inductive handle_call where
  | acquire
  | release (lrc : Int)
deriving DecidableEq, Repr

/-- The device after one handle call. -/
def handle_step (hw : ispif_hwreg) (s : ispif_device) : handle_call → ispif_device
  | .acquire => (ispif_open_node s).2
  | .release lrc => (ispif_close_node hw lrc s).2

/-- The device after a sequence of handle calls. -/
def handle_run (hw : ispif_hwreg) (s : ispif_device) (calls : List handle_call) :
    ispif_device :=
  calls.foldl (handle_step hw) s

/-- Bit offset of a lane's 2-bit field in the input-select register: the `BIT`
pairs of the `switch` of `msm_ispif_sel_csid_core`. -/
def input_sel_shift (intftype : Nat) : Nat :=
  if intftype = PIX0 then 0
  else if intftype = RDI0 then 4
  else if intftype = PIX1 then 8
  else if intftype = RDI1 then 12
  else 20

/-- The three status words of one bank (`struct ispif_irq_status`). -/
structure ispif_irq_status where
  ispifIrqStatus0 : Nat
  ispifIrqStatus1 : Nat
  ispifIrqStatus2 : Nat
deriving DecidableEq, Repr

/-- Increment of `sof_count[vfe_id].sof_cnt[lane]`. The counter type is declared
in the absent header; it is modelled without wrap-around. -/
def sof_cnt_incr (s : ispif_device) (vfe_id lane : Nat) : ispif_device :=
  { s with
      sof_count := Function.update s.sof_count vfe_id
                     (Function.update (s.sof_count vfe_id) lane (s.sof_count vfe_id lane + 1)) }

/-- Source `ispif_process_irq`. -/
def ispif_process_irq (hw : ispif_hwreg) (s : ispif_device)
    (out : Nat → ispif_irq_status) (vfe_id : Nat) : ispif_device :=
  let s :=
    if (out vfe_id).ispifIrqStatus0 &&& hw.ISPIF_IRQ_STATUS_PIX_SOF_MASK ≠ 0 then
      sof_cnt_incr s vfe_id PIX0
    else s
  let s :=
    if (out vfe_id).ispifIrqStatus0 &&& hw.ISPIF_IRQ_STATUS_RDI0_SOF_MASK ≠ 0 then
      sof_cnt_incr s vfe_id RDI0
    else s
  let s :=
    if (out vfe_id).ispifIrqStatus1 &&& hw.ISPIF_IRQ_STATUS_RDI1_SOF_MASK ≠ 0 then
      sof_cnt_incr s vfe_id RDI1
    else s
  if (out vfe_id).ispifIrqStatus2 &&& hw.ISPIF_IRQ_STATUS_RDI2_SOF_MASK ≠ 0 then
    sof_cnt_incr s vfe_id RDI2
  else s

/-- The part of `msm_ispif_read_irq_status` that reads the three status
registers of the bank at `bank` (0 or `0x200`) and writes each value back to its
clear register. Returns the status words and the device. -/
def read_irq_bank (hw : ispif_hwreg) (bank : Nat) (s : ispif_device) :
    ispif_irq_status × ispif_device :=
  let st0 := msm_camera_io_r (hw.ISPIF_IRQ_STATUS_ADDR + bank) s
  let s := msm_camera_io_w st0 (hw.ISPIF_IRQ_CLEAR_ADDR + bank) s
  let st1 := msm_camera_io_r (hw.ISPIF_IRQ_STATUS_1_ADDR + bank) s
  let s := msm_camera_io_w st1 (hw.ISPIF_IRQ_CLEAR_1_ADDR + bank) s
  let st2 := msm_camera_io_r (hw.ISPIF_IRQ_STATUS_2_ADDR + bank) s
  let s := msm_camera_io_w_mb st2 (hw.ISPIF_IRQ_CLEAR_2_ADDR + bank) s
  (⟨st0, st1, st2⟩, s)

/-- Source `msm_ispif_read_irq_status`; `out` is the caller's array (its initial
content is whatever the caller's stack holds). The overflow reports (`pr_err`)
change nothing. Returns the filled array and the device. -/
def msm_ispif_read_irq_status (hw : ispif_hwreg) (out : Nat → ispif_irq_status)
    (s : ispif_device) : (Nat → ispif_irq_status) × ispif_device :=
  let b0 := read_irq_bank hw 0 s
  let out := Function.update out VFE0 b0.1
  let s := b0.2
  let s :=
    if (out VFE0).ispifIrqStatus0 &&& hw.ISPIF_IRQ_STATUS_MASK ≠ 0 then
      let s :=
        if (out VFE0).ispifIrqStatus0 &&& hw.RESET_DONE_IRQ ≠ 0 then complete s else s
      ispif_process_irq hw s out VFE0
    else s
  let r : (Nat → ispif_irq_status) × ispif_device :=
    if s.csid_version = hw.CSID_VERSION_V3 then
      let b1 := read_irq_bank hw 0x200 s
      let out := Function.update out VFE1 b1.1
      (out, ispif_process_irq hw b1.2 out VFE1)
    else (out, s)
  (r.1, msm_camera_io_w_mb hw.ISPIF_IRQ_GLOBAL_CLEAR_CMD hw.ISPIF_IRQ_GLOBAL_CLEAR_CMD_ADDR r.2)

/-- Source `msm_io_ispif_irq`: the handler runs the reader on a local array and
discards it. -/
def msm_io_ispif_irq (hw : ispif_hwreg) (s : ispif_device) : ispif_device :=
  (msm_ispif_read_irq_status hw (fun _ => ⟨0, 0, 0⟩) s).2

/-- The first half of `msm_ispif_intf_reset`: the loop over the entries and the
write of the reset command; the device at the moment the wait starts. -/
def msm_ispif_intf_reset_cmd (hw : ispif_hwreg) (s : ispif_device)
    (params : msm_ispif_param_data) : ispif_device :=
  let acc := params.entries.foldl (msm_ispif_intf_reset_entry hw params.vfe_intf)
    (s, hw.STROBED_RST_EN, 0)
  if acc.2.1 > 0x1 then
    if params.vfe_intf = VFE0 then msm_camera_io_w acc.2.1 hw.ISPIF_RST_CMD_ADDR acc.1
    else msm_camera_io_w acc.2.1 hw.ISPIF_RST_CMD_1_ADDR acc.1
  else acc.1

/-- Modelled from the spec: the hardware raising interrupt status bits in the
primary status register of VFE0 (the register is read-only for the driver). -/
def hw_raise_irq (hw : ispif_hwreg) (status0 : Nat) (s : ispif_device) : ispif_device :=
  { s with regs := Function.update s.regs hw.ISPIF_IRQ_STATUS_ADDR status0 }

/-- A V3 device whose input-select register of VFE0 reads 1 (lane PIX0 routed
from CSID 1, every other field 0). -/
def input_sel_one_v3 : ispif_device :=
  { init_done_v3 with regs := fun a => if a = 0x244 then 1 else 0 }

/-- A V3 device on which, for both VFE banks, the primary interrupt status reads
0 and the secondary status has one RDI1 start-of-frame bit (`0x2000`) set. -/
def rdi1_sof_only_v3 : ispif_device :=
  { init_done_v3 with regs := fun a => if a = 0x220 ∨ a = 0x420 then 0x2000 else 0 }

/-- The device after `ispif_open_node`, a successful `msm_ispif_init` on V3 and
a second `ispif_open_node`: two handles are outstanding. -/
def two_openers_v3 : ispif_device :=
  (ispif_open_node
    (msm_ispif_init hwreg_v2 ⟨0, true, 0, 1⟩ (ispif_open_node probe_device).2
      hwreg_v2.CSID_VERSION_V3).2).2

/-- The word the spec prescribes for the input-select register after selecting
CSID source `csid` for a lane, from the prior value `r`:
`(r AND NOT (3 << off)) OR (csid << off)`. -/
def input_sel_spec_word (r intftype csid : Nat) : Nat :=
  (r &&& not32 (3 <<< input_sel_shift intftype)) ||| (csid <<< input_sel_shift intftype)

/-- The request used to evaluate the reset protocol: lane RDI0, channel 0, VFE0. -/
def rdi0_request : msm_ispif_param_data := ⟨VFE0, [⟨RDI0, [0], 0⟩]⟩

/-- A reachable device with a stale completion: after a successful init on V3,
a `start_frame_boundary` whose reset wait times out, the hardware raises the
reset-done status late and the interrupt handler runs. -/
def late_reset_done_v3 : ispif_device :=
  msm_io_ispif_irq hwreg_v2
    (hw_raise_irq hwreg_v2 hwreg_v2.RESET_DONE_IRQ
      (msm_ispif_start_frame_boundary hwreg_v2 0 init_done_v3 rdi0_request).2)

/-! ## Bit-level lemmas -/

theorem testBit_lt_four (cmd i : Nat) (h : cmd < 4) (hi : 2 ≤ i) : cmd.testBit i = false := by
  apply Nat.testBit_lt_two_pow
  calc cmd < 4 := h
    _ = 2 ^ 2 := by norm_num
    _ ≤ 2 ^ i := Nat.pow_le_pow_right (by norm_num) hi

theorem testBit_three (i : Nat) : (3 : Nat).testBit i = decide (i < 2) := by
  have : (3 : Nat) = 2 ^ 2 - 1 := by norm_num
  rw [this, Nat.testBit_two_pow_sub_one]

theorem testBit_not32 (x j : Nat) :
    (not32 x).testBit j = (decide (j < 32) && !x.testBit j) := by
  unfold not32 u32
  have h1 : (0xFFFFFFFF : Nat) = 2 ^ 32 - 1 := by norm_num
  have h2 : (4294967296 : Nat) = 2 ^ 32 := by norm_num
  rw [h1, h2, Nat.testBit_xor, Nat.testBit_two_pow_sub_one, Nat.testBit_mod_two_pow]
  by_cases h : j < 32 <;> simp [h]

theorem testBit_u32 (x j : Nat) : (u32 x).testBit j = (decide (j < 32) && x.testBit j) := by
  unfold u32
  have h2 : (4294967296 : Nat) = 2 ^ 32 := by norm_num
  rw [h2, Nat.testBit_mod_two_pow]

theorem testBit_u16 (x j : Nat) : (u16 x).testBit j = (decide (j < 16) && x.testBit j) := by
  unfold u16
  have h2 : (65536 : Nat) = 2 ^ 16 := by norm_num
  rw [h2, Nat.testBit_mod_two_pow]

theorem u32_lt (x : Nat) : u32 x < 4294967296 := Nat.mod_lt _ (by norm_num)

theorem u16_lt (x : Nat) : u16 x < 65536 := Nat.mod_lt _ (by norm_num)

theorem u32_of_lt (x : Nat) (h : x < 4294967296) : u32 x = x := Nat.mod_eq_of_lt h

theorem u8_of_lt (x : Nat) (h : x < 256) : u8 x = x := Nat.mod_eq_of_lt h

/-- A 2-bit command shifted by at most 30 positions fits a 32-bit word. -/
theorem u32_shiftLeft_cmd (cmd off : Nat) (hcmd : cmd < 4) (hoff : off + 2 ≤ 32) :
    u32 (cmd <<< off) = cmd <<< off := by
  apply u32_of_lt
  rw [Nat.shiftLeft_eq]
  calc cmd * 2 ^ off < 4 * 2 ^ off := Nat.mul_lt_mul_of_pos_right hcmd (by positivity)
    _ = 2 ^ (off + 2) := by rw [pow_add]; ring
    _ ≤ 2 ^ 32 := Nat.pow_le_pow_right (by norm_num) hoff
    _ = 4294967296 := by norm_num

/-- Bits of a word after the read-modify-write of a 2-bit field at `off`. -/
theorem testBit_merge (p off cmd j : Nat) (hcmd : cmd < 4) (hj : j < 32) :
    ((p &&& not32 (0x3 <<< off)) ||| u32 (cmd <<< off)).testBit j
      = if off ≤ j ∧ j < off + 2 then cmd.testBit (j - off) else p.testBit j := by
  rw [Nat.testBit_or, Nat.testBit_and, testBit_not32, testBit_u32, Nat.testBit_shiftLeft,
    Nat.testBit_shiftLeft, testBit_three]
  by_cases h1 : off ≤ j
  · by_cases h2 : j < off + 2
    · have : j - off < 2 := by omega
      simp [h1, h2, hj, this]
    · have h3 : ¬ (j - off < 2) := by omega
      have := testBit_lt_four cmd (j - off) hcmd (by omega)
      simp [h1, h2, hj, h3, this]
  · simp [h1, hj]

/-- The 2-bit field at `off` reads back the command just merged. -/
theorem field_merge (p off cmd : Nat) (hcmd : cmd < 4) (hoff : off + 2 ≤ 32) :
    (((p &&& not32 (0x3 <<< off)) ||| u32 (cmd <<< off)) >>> off) &&& 3 = cmd := by
  apply Nat.eq_of_testBit_eq
  intro i
  rw [Nat.testBit_and, Nat.testBit_shiftRight, testBit_three]
  by_cases hi : i < 2
  · rw [testBit_merge p off cmd (off + i) hcmd (by omega)]
    simp [hi]
  · simp [hi, testBit_lt_four cmd i hcmd (by omega)]

/-! ## Register file lemmas -/

@[simp] theorem io_w_regs (d a : Nat) (s : ispif_device) :
    (msm_camera_io_w d a s).regs = Function.update s.regs a d := rfl

@[simp] theorem io_w_wlog (d a : Nat) (s : ispif_device) :
    (msm_camera_io_w d a s).wlog = s.wlog ++ [(a, d)] := rfl

@[simp] theorem io_w_applied (d a : Nat) (s : ispif_device) :
    (msm_camera_io_w d a s).applied_intf_cmd = s.applied_intf_cmd := rfl

@[simp] theorem io_w_version (d a : Nat) (s : ispif_device) :
    (msm_camera_io_w d a s).csid_version = s.csid_version := rfl

@[simp] theorem io_w_mb_eq (d a : Nat) (s : ispif_device) :
    msm_camera_io_w_mb d a s = msm_camera_io_w d a s := rfl

theorem io_r_io_w_same (d a : Nat) (s : ispif_device) :
    msm_camera_io_r a (msm_camera_io_w d a s) = u32 d := by
  simp [msm_camera_io_r]

theorem io_r_io_w_other (d a b : Nat) (s : ispif_device) (h : b ≠ a) :
    msm_camera_io_r b (msm_camera_io_w d a s) = msm_camera_io_r b s := by
  simp [msm_camera_io_r, Function.update_noteq h]

/-! ## Frame-boundary command composition -/

/-- On a valid interface `msm_ispif_intf_cmd` stores the composed words in
`applied_intf_cmd[vfe_intf]` (the register writes do not touch them). -/
theorem intf_cmd_applied (hw : ispif_hwreg) (s : ispif_device) (cmd : Nat)
    (params : msm_ispif_param_data)
    (hvalid : msm_ispif_is_intf_valid hw s.csid_version params.vfe_intf = true) :
    (msm_ispif_intf_cmd hw s cmd params).applied_intf_cmd
      = Function.update s.applied_intf_cmd params.vfe_intf
          (msm_ispif_intf_cmd_compose cmd params.vfe_intf params.entries
            (s.applied_intf_cmd params.vfe_intf)) := by
  unfold msm_ispif_intf_cmd
  rw [if_neg (by simp [hvalid])]
  dsimp only
  split_ifs <;> rfl

/-- C1: for every device state, every valid vfe, every lane, every channel `c`
and every command (00, 01, 10), `msm_ispif_intf_cmd` on a request with the single
pair (lane, c) computes, with `vc = c mod 4`: for lane RDI2 the secondary word
becomes `(secondary AND NOT (3 << (2*vc+8))) OR (cmd << (2*vc+8))` and the primary
word is unchanged; for every other lane the primary word becomes
`(primary AND NOT (3 << (2*vc+8*vfe))) OR (cmd << (2*vc+8*vfe))` and the secondary
word is unchanged. -/
theorem intf_cmd_single_entry (hw : ispif_hwreg) (s : ispif_device)
    (vfe lane c cmd csid : Nat)
    (hvfe : vfe = VFE0 ∨ vfe = VFE1)
    (hvalid : msm_ispif_is_intf_valid hw s.csid_version vfe = true)
    (hcmd : cmd = 0 ∨ cmd = 1 ∨ cmd = 2) :
    (lane = RDI2 →
        ((msm_ispif_intf_cmd hw s cmd ⟨vfe, [⟨lane, [c], csid⟩]⟩).applied_intf_cmd vfe).intf_cmd1
          = ((s.applied_intf_cmd vfe).intf_cmd1 &&& not32 (3 <<< (2 * (c % 4) + 8)))
              ||| (cmd <<< (2 * (c % 4) + 8))
        ∧ ((msm_ispif_intf_cmd hw s cmd ⟨vfe, [⟨lane, [c], csid⟩]⟩).applied_intf_cmd vfe).intf_cmd
          = (s.applied_intf_cmd vfe).intf_cmd)
    ∧ (lane ≠ RDI2 →
        ((msm_ispif_intf_cmd hw s cmd ⟨vfe, [⟨lane, [c], csid⟩]⟩).applied_intf_cmd vfe).intf_cmd
          = ((s.applied_intf_cmd vfe).intf_cmd &&& not32 (3 <<< (2 * (c % 4) + 8 * vfe)))
              ||| (cmd <<< (2 * (c % 4) + 8 * vfe))
        ∧ ((msm_ispif_intf_cmd hw s cmd ⟨vfe, [⟨lane, [c], csid⟩]⟩).applied_intf_cmd vfe).intf_cmd1
          = (s.applied_intf_cmd vfe).intf_cmd1) := by
  have hc4 : c % 4 < 4 := Nat.mod_lt _ (by norm_num)
  have hvc : u8 (c % 4) = c % 4 := u8_of_lt _ (by omega)
  have hcmd4 : cmd < 4 := by omega
  have hv : vfe ≤ 1 := by rcases hvfe with h | h <;> simp [h, VFE0, VFE1]
  rw [intf_cmd_applied hw s cmd _ hvalid]
  simp only [Function.update_same, msm_ispif_intf_cmd_compose, List.foldl_cons, List.foldl_nil,
    msm_ispif_intf_cmd_cid, hvc]
  constructor
  · intro hl
    simp only [hl, if_true]
    rw [u32_shiftLeft_cmd cmd _ hcmd4 (by omega)]
    rw [show c % 4 * 2 + 8 = 2 * (c % 4) + 8 by ring]
    simp
  · intro hl
    simp only [hl, if_false]
    rw [u32_shiftLeft_cmd cmd _ hcmd4 (by omega)]
    rw [show c % 4 * 2 + vfe * 8 = 2 * (c % 4) + 8 * vfe by ring]
    simp

/-- Evaluation of C1 on version V3, VFE1, lane RDI0, channel 5, command 01,
starting from the first-init sentinel. -/
theorem intf_cmd_single_entry_witness :
    (RDI0 = RDI2 →
        ((msm_ispif_intf_cmd hwreg_v2
            { probe_device with csid_version := 0x30000,
                                applied_intf_cmd := fun _ => ⟨0xFFFFFFFF, 0xFFFFFFFF⟩ } 1
            ⟨VFE1, [⟨RDI0, [5], 0⟩]⟩).applied_intf_cmd VFE1).intf_cmd1
          = ((0xFFFFFFFF : Nat) &&& not32 (3 <<< (2 * (5 % 4) + 8))) ||| (1 <<< (2 * (5 % 4) + 8))
        ∧ ((msm_ispif_intf_cmd hwreg_v2
            { probe_device with csid_version := 0x30000,
                                applied_intf_cmd := fun _ => ⟨0xFFFFFFFF, 0xFFFFFFFF⟩ } 1
            ⟨VFE1, [⟨RDI0, [5], 0⟩]⟩).applied_intf_cmd VFE1).intf_cmd = 0xFFFFFFFF)
    ∧ (RDI0 ≠ RDI2 →
        ((msm_ispif_intf_cmd hwreg_v2
            { probe_device with csid_version := 0x30000,
                                applied_intf_cmd := fun _ => ⟨0xFFFFFFFF, 0xFFFFFFFF⟩ } 1
            ⟨VFE1, [⟨RDI0, [5], 0⟩]⟩).applied_intf_cmd VFE1).intf_cmd
          = ((0xFFFFFFFF : Nat) &&& not32 (3 <<< (2 * (5 % 4) + 8 * VFE1)))
              ||| (1 <<< (2 * (5 % 4) + 8 * VFE1))
        ∧ ((msm_ispif_intf_cmd hwreg_v2
            { probe_device with csid_version := 0x30000,
                                applied_intf_cmd := fun _ => ⟨0xFFFFFFFF, 0xFFFFFFFF⟩ } 1
            ⟨VFE1, [⟨RDI0, [5], 0⟩]⟩).applied_intf_cmd VFE1).intf_cmd1 = 0xFFFFFFFF) :=
  intf_cmd_single_entry hwreg_v2
    { probe_device with csid_version := 0x30000,
                        applied_intf_cmd := fun _ => ⟨0xFFFFFFFF, 0xFFFFFFFF⟩ }
    VFE1 RDI0 5 1 0 (Or.inr rfl) (by decide) (Or.inr (Or.inl rfl))

/-- Fields at distinct lanes but equal `vc` and vfe coincide in the primary word:
a command for (laneB, b) overwrites the field read for any other non-RDI2 lane
with the same `b mod 4`. -/
theorem intf_cmd_field_shared (hw : ispif_hwreg) (s : ispif_device)
    (vfe laneB b cmd csid : Nat)
    (hvfe : vfe = VFE0 ∨ vfe = VFE1)
    (hvalid : msm_ispif_is_intf_valid hw s.csid_version vfe = true)
    (hB : laneB ≠ RDI2) (hcmd : cmd < 4) :
    cmd_field
      ((msm_ispif_intf_cmd hw s cmd ⟨vfe, [⟨laneB, [b], csid⟩]⟩).applied_intf_cmd vfe).intf_cmd
      (2 * (b % 4) + 8 * vfe) = cmd := by
  have hc4 : b % 4 < 4 := Nat.mod_lt _ (by norm_num)
  have hvc : u8 (b % 4) = b % 4 := u8_of_lt _ (by omega)
  have hv : vfe ≤ 1 := by rcases hvfe with h | h <;> simp [h, VFE0, VFE1]
  rw [intf_cmd_applied hw s cmd _ hvalid]
  simp only [Function.update_same, msm_ispif_intf_cmd_compose, List.foldl_cons, List.foldl_nil,
    msm_ispif_intf_cmd_cid, hvc, hB, if_false, cmd_field]
  rw [show b % 4 * 2 + vfe * 8 = 2 * (b % 4) + 8 * vfe by ring]
  exact field_merge _ _ cmd hcmd (by omega)

/-- What a single-pair command does leave alone: for a lane other than RDI2 the
secondary word and every bit of the primary word outside the two bits at
`2*(b mod 4) + 8*vfe`; for RDI2 the primary word and every bit of the secondary
word outside the two bits at `2*(b mod 4) + 8`. -/
theorem intf_cmd_frame (hw : ispif_hwreg) (s : ispif_device)
    (vfe laneB b cmd csid : Nat)
    (hvalid : msm_ispif_is_intf_valid hw s.csid_version vfe = true)
    (hcmd : cmd < 4) :
    (laneB ≠ RDI2 →
      ((msm_ispif_intf_cmd hw s cmd ⟨vfe, [⟨laneB, [b], csid⟩]⟩).applied_intf_cmd vfe).intf_cmd1
          = (s.applied_intf_cmd vfe).intf_cmd1
      ∧ ∀ j, j < 32 → ¬ (2 * (b % 4) + 8 * vfe ≤ j ∧ j < 2 * (b % 4) + 8 * vfe + 2) →
          ((msm_ispif_intf_cmd hw s cmd
              ⟨vfe, [⟨laneB, [b], csid⟩]⟩).applied_intf_cmd vfe).intf_cmd.testBit j
            = (s.applied_intf_cmd vfe).intf_cmd.testBit j)
    ∧ (laneB = RDI2 →
      ((msm_ispif_intf_cmd hw s cmd ⟨vfe, [⟨laneB, [b], csid⟩]⟩).applied_intf_cmd vfe).intf_cmd
          = (s.applied_intf_cmd vfe).intf_cmd
      ∧ ∀ j, j < 32 → ¬ (2 * (b % 4) + 8 ≤ j ∧ j < 2 * (b % 4) + 8 + 2) →
          ((msm_ispif_intf_cmd hw s cmd
              ⟨vfe, [⟨laneB, [b], csid⟩]⟩).applied_intf_cmd vfe).intf_cmd1.testBit j
            = (s.applied_intf_cmd vfe).intf_cmd1.testBit j) := by
  have hc4 : b % 4 < 4 := Nat.mod_lt _ (by norm_num)
  have hvc : u8 (b % 4) = b % 4 := u8_of_lt _ (by omega)
  rw [intf_cmd_applied hw s cmd _ hvalid]
  simp only [Function.update_same, msm_ispif_intf_cmd_compose, List.foldl_cons, List.foldl_nil,
    msm_ispif_intf_cmd_cid, hvc]
  constructor
  · intro hB
    simp only [hB, if_false, true_and]
    intro j hj hout
    rw [show b % 4 * 2 + vfe * 8 = 2 * (b % 4) + 8 * vfe by ring,
      testBit_merge _ _ cmd j hcmd hj, if_neg hout]
  · intro hB
    simp only [hB, if_true, true_and]
    intro j hj hout
    rw [show b % 4 * 2 + 8 = 2 * (b % 4) + 8 by ring,
      testBit_merge _ _ cmd j hcmd hj, if_neg hout]

/-- C2 (evaluation at the failing input): on VFE0 of a freshly initialised V3
device, `start_frame_boundary` on (PIX0, channel 1) succeeds and sets the field
of (PIX0, channel 1) to 01; the following `stop_immediately` that names only
(RDI0, channel 1) overwrites that same field with 10. -/
theorem stop_other_lane_overwrites_field :
    (msm_ispif_start_frame_boundary hwreg_v2 1 init_done_v3 ⟨VFE0, [⟨PIX0, [1], 0⟩]⟩).1 = 0
    ∧ cmd_field
        (((msm_ispif_start_frame_boundary hwreg_v2 1 init_done_v3
            ⟨VFE0, [⟨PIX0, [1], 0⟩]⟩).2.applied_intf_cmd VFE0).intf_cmd)
        (2 * (1 % 4) + 8 * VFE0) = 1
    ∧ cmd_field
        (((msm_ispif_stop_immediately hwreg_v2
            (msm_ispif_start_frame_boundary hwreg_v2 1 init_done_v3
              ⟨VFE0, [⟨PIX0, [1], 0⟩]⟩).2
            ⟨VFE0, [⟨RDI0, [1], 0⟩]⟩).2.applied_intf_cmd VFE0).intf_cmd)
        (2 * (1 % 4) + 8 * VFE0) = 2 := by
  decide

/-- C3: for every device state and every request, the register writes issued by
`msm_ispif_intf_cmd` are at most the primary word to `ISPIF_INTF_CMD_ADDR` and the
secondary word to `ISPIF_INTF_CMD_1_ADDR` (each in the VFE block), no written
value is `0xFFFFFFFF`, and a word that holds the sentinel after composition is
not written. -/
theorem intf_cmd_never_writes_sentinel (hw : ispif_hwreg) (s : ispif_device) (cmd : Nat)
    (params : msm_ispif_param_data) :
    ∃ new : List (Nat × Nat),
      (msm_ispif_intf_cmd hw s cmd params).wlog = s.wlog ++ new
      ∧ (∀ w ∈ new, w.2 ≠ 0xFFFFFFFF)
      ∧ (∀ w ∈ new,
          w = (hw.ISPIF_INTF_CMD_ADDR + 0x200 * params.vfe_intf,
                ((msm_ispif_intf_cmd hw s cmd params).applied_intf_cmd params.vfe_intf).intf_cmd)
          ∨ w = (hw.ISPIF_INTF_CMD_1_ADDR + 0x200 * params.vfe_intf,
                ((msm_ispif_intf_cmd hw s cmd params).applied_intf_cmd params.vfe_intf).intf_cmd1))
      ∧ (((msm_ispif_intf_cmd hw s cmd params).applied_intf_cmd params.vfe_intf).intf_cmd
            = 0xFFFFFFFF →
          ∀ w ∈ new, w = (hw.ISPIF_INTF_CMD_1_ADDR + 0x200 * params.vfe_intf,
                ((msm_ispif_intf_cmd hw s cmd params).applied_intf_cmd params.vfe_intf).intf_cmd1))
      ∧ (((msm_ispif_intf_cmd hw s cmd params).applied_intf_cmd params.vfe_intf).intf_cmd1
            = 0xFFFFFFFF →
          ∀ w ∈ new, w = (hw.ISPIF_INTF_CMD_ADDR + 0x200 * params.vfe_intf,
                ((msm_ispif_intf_cmd hw s cmd params).applied_intf_cmd params.vfe_intf).intf_cmd)) := by
  by_cases hvalid : msm_ispif_is_intf_valid hw s.csid_version params.vfe_intf = true
  · rw [intf_cmd_applied hw s cmd params hvalid]
    simp only [Function.update_same]
    unfold msm_ispif_intf_cmd
    rw [if_neg (by simp [hvalid])]
    dsimp only
    generalize msm_ispif_intf_cmd_compose cmd params.vfe_intf params.entries
        (s.applied_intf_cmd params.vfe_intf) = a
    by_cases h0 : a.intf_cmd = 0xFFFFFFFF
    · by_cases h1 : a.intf_cmd1 = 0xFFFFFFFF
      · exact ⟨[], by simp [h0, h1]⟩
      · refine ⟨[(hw.ISPIF_INTF_CMD_1_ADDR + 0x200 * params.vfe_intf, a.intf_cmd1)], ?_⟩
        simp [h0, h1]
    · by_cases h1 : a.intf_cmd1 = 0xFFFFFFFF
      · refine ⟨[(hw.ISPIF_INTF_CMD_ADDR + 0x200 * params.vfe_intf, a.intf_cmd)], ?_⟩
        simp [h0, h1]
      · refine ⟨[(hw.ISPIF_INTF_CMD_ADDR + 0x200 * params.vfe_intf, a.intf_cmd),
          (hw.ISPIF_INTF_CMD_1_ADDR + 0x200 * params.vfe_intf, a.intf_cmd1)], ?_⟩
        simp [h0, h1]
  · have hs : msm_ispif_intf_cmd hw s cmd params = s := by
      unfold msm_ispif_intf_cmd
      rw [if_pos (by simpa using hvalid)]
    exact ⟨[], by simp [hs]⟩

/-! ## Frame lemmas: what the helpers leave untouched -/

theorem wait_preserves (lrc : Int) (s : ispif_device) :
    (wait_for_completion_interruptible_timeout lrc s).2.csid_version = s.csid_version
    ∧ (wait_for_completion_interruptible_timeout lrc s).2.applied_intf_cmd
        = s.applied_intf_cmd := by
  unfold wait_for_completion_interruptible_timeout
  split_ifs <;> exact ⟨rfl, rfl⟩

theorem intf_reset_entry_preserves (hw : ispif_hwreg) (vfe : Nat)
    (acc : ispif_device × Nat × Int) (e : msm_ispif_params_entry) :
    (msm_ispif_intf_reset_entry hw vfe acc e).1.csid_version = acc.1.csid_version
    ∧ (msm_ispif_intf_reset_entry hw vfe acc e).1.applied_intf_cmd
        = acc.1.applied_intf_cmd := by
  unfold msm_ispif_intf_reset_entry
  dsimp only
  split_ifs <;> exact ⟨rfl, rfl⟩

theorem intf_reset_fold_preserves (hw : ispif_hwreg) (vfe : Nat)
    (es : List msm_ispif_params_entry) :
    ∀ acc : ispif_device × Nat × Int,
      (es.foldl (msm_ispif_intf_reset_entry hw vfe) acc).1.csid_version = acc.1.csid_version
      ∧ (es.foldl (msm_ispif_intf_reset_entry hw vfe) acc).1.applied_intf_cmd
          = acc.1.applied_intf_cmd := by
  induction es with
  | nil => intro acc; exact ⟨rfl, rfl⟩
  | cons e es ih =>
    intro acc
    rw [List.foldl_cons]
    have h1 := ih (msm_ispif_intf_reset_entry hw vfe acc e)
    have h2 := intf_reset_entry_preserves hw vfe acc e
    exact ⟨h1.1.trans h2.1, h1.2.trans h2.2⟩

/-- The per-interface reset leaves the stored version and the applied command
words as they were. -/
theorem intf_reset_preserves (hw : ispif_hwreg) (lrc : Int) (s : ispif_device)
    (params : msm_ispif_param_data) :
    (msm_ispif_intf_reset hw lrc s params).2.csid_version = s.csid_version
    ∧ (msm_ispif_intf_reset hw lrc s params).2.applied_intf_cmd = s.applied_intf_cmd := by
  have hf := intf_reset_fold_preserves hw params.vfe_intf params.entries
    (s, hw.STROBED_RST_EN, 0)
  unfold msm_ispif_intf_reset
  dsimp only
  split_ifs
  all_goals first
    | exact hf
    | (refine ⟨(wait_preserves _ _).1.trans ?_, (wait_preserves _ _).2.trans ?_⟩
       · exact hf.1
       · exact hf.2)

theorem intf_cmd_version (hw : ispif_hwreg) (s : ispif_device) (cmd : Nat)
    (params : msm_ispif_param_data) :
    (msm_ispif_intf_cmd hw s cmd params).csid_version = s.csid_version := by
  unfold msm_ispif_intf_cmd
  dsimp only
  split_ifs <;> rfl

theorem enable_intf_cids_preserves (hw : ispif_hwreg) (s : ispif_device)
    (intftype cid_mask vfe enable : Nat) :
    (msm_ispif_enable_intf_cids hw s intftype cid_mask vfe enable).csid_version
        = s.csid_version
    ∧ (msm_ispif_enable_intf_cids hw s intftype cid_mask vfe enable).applied_intf_cmd
        = s.applied_intf_cmd := by
  unfold msm_ispif_enable_intf_cids
  dsimp only
  split_ifs <;>
    first
      | exact ⟨rfl, rfl⟩
      | (cases intf_cid_mask_addr hw (u8 intftype) <;> exact ⟨rfl, rfl⟩)

/-! ## Channel-id masks -/

theorem testBit_lt_65536 (m j : Nat) (hm : m < 65536) (hj : 16 ≤ j) : m.testBit j = false := by
  apply Nat.testBit_lt_two_pow
  calc m < 65536 := hm
    _ = 2 ^ 16 := by norm_num
    _ ≤ 2 ^ j := Nat.pow_le_pow_right (by norm_num) hj

theorem cids_fold_testBit (cids : List Nat) :
    ∀ m : Nat, m < 65536 → ∀ j : Nat,
      (cids.foldl (fun cids_mask cid => u16 (cids_mask ||| (1 <<< cid))) m).testBit j
        = (m.testBit j || (decide (j < 16) && decide (j ∈ cids))) := by
  induction cids with
  | nil => intro m _ j; simp
  | cons c cs ih =>
    intro m hm j
    rw [List.foldl_cons, ih _ (u16_lt _) j, testBit_u16, Nat.testBit_or, Nat.one_shiftLeft,
      Nat.testBit_two_pow]
    by_cases hj : j < 16
    · by_cases hc : c = j
      · simp [hj, hc]
      · have hc2 : ¬ j = c := fun h => hc h.symm
        simp [hj, hc, hc2]
    · have := testBit_lt_65536 m j hm (by omega)
      simp [hj, this]

/-- Bit `j` of the mask of an entry is set exactly when `j` is below 16 and is
one of the entry's channel ids. -/
theorem cids_mask_testBit (e : msm_ispif_params_entry) (j : Nat) :
    (msm_ispif_get_cids_mask_from_cfg e).testBit j = (decide (j < 16) && decide (j ∈ e.cids)) := by
  unfold msm_ispif_get_cids_mask_from_cfg
  rw [cids_fold_testBit e.cids 0 (by norm_num) j]
  simp

theorem cids_mask_lt (e : msm_ispif_params_entry) :
    msm_ispif_get_cids_mask_from_cfg e < 65536 := by
  unfold msm_ispif_get_cids_mask_from_cfg
  cases h : e.cids with
  | nil => simp
  | cons c cs =>
    have : ∀ (l : List Nat) (m : Nat), m < 65536 →
        l.foldl (fun cids_mask cid => u16 (cids_mask ||| (1 <<< cid))) m < 65536 := by
      intro l
      induction l with
      | nil => intro m hm; simpa using hm
      | cons a l ih => intro m _; rw [List.foldl_cons]; exact ih _ (u16_lt _)
    exact this _ _ (by norm_num)

/-! ## CID-mask register updates -/

theorem not32_lt (x : Nat) : not32 x < 4294967296 := by
  unfold not32
  have h : u32 x < 2 ^ 32 := by simpa using u32_lt x
  have := Nat.xor_lt_two_pow (show (0xFFFFFFFF : Nat) < 2 ^ 32 by norm_num) h
  simpa using this

/-- Reading back a lane's CID-mask register after `msm_ispif_enable_intf_cids`
with `enable = 0`: the previous value with the mask bits cleared. -/
theorem enable_intf_cids_clear_read (hw : ispif_hwreg) (s : ispif_device)
    (lane mask vfe off : Nat)
    (hvalid : msm_ispif_is_intf_valid hw s.csid_version vfe = true)
    (hlane : lane < 256) (hvfe : vfe < 256)
    (hoff : intf_cid_mask_addr hw lane = some off) :
    msm_camera_io_r (off + 0x200 * vfe) (msm_ispif_enable_intf_cids hw s lane mask vfe 0)
      = msm_camera_io_r (off + 0x200 * vfe) s &&& not32 (u16 mask) := by
  unfold msm_ispif_enable_intf_cids
  simp only [u8_of_lt lane hlane, u8_of_lt vfe hvfe, hvalid, hoff, io_w_mb_eq]
  rw [if_neg (by simp)]
  have h0 : u8 0 = 0 := rfl
  simp only [h0, ne_eq, not_true_eq_false, if_false]
  rw [io_r_io_w_same]
  apply u32_of_lt
  have h := Nat.and_lt_two_pow (msm_camera_io_r (off + 0x200 * vfe) s)
    (show not32 (u16 mask) < 2 ^ 32 by simpa using not32_lt (u16 mask))
  simpa using h

/-- Reading back a lane's CID-mask register after `msm_ispif_enable_intf_cids`
with `enable = 1`: the previous value OR the mask. -/
theorem enable_intf_cids_set_read (hw : ispif_hwreg) (s : ispif_device)
    (lane mask vfe off : Nat)
    (hvalid : msm_ispif_is_intf_valid hw s.csid_version vfe = true)
    (hlane : lane < 256) (hvfe : vfe < 256)
    (hoff : intf_cid_mask_addr hw lane = some off) :
    msm_camera_io_r (off + 0x200 * vfe) (msm_ispif_enable_intf_cids hw s lane mask vfe 1)
      = msm_camera_io_r (off + 0x200 * vfe) s ||| u16 mask := by
  unfold msm_ispif_enable_intf_cids
  simp only [u8_of_lt lane hlane, u8_of_lt vfe hvfe, hvalid, hoff, io_w_mb_eq]
  rw [if_neg (by simp)]
  have h1 : u8 1 = 1 := rfl
  simp only [h1, ne_eq, one_ne_zero, not_false_eq_true, if_true]
  rw [io_r_io_w_same]
  apply u32_of_lt
  have hr : msm_camera_io_r (off + 0x200 * vfe) s < 2 ^ 32 := by
    simpa [msm_camera_io_r] using u32_lt (s.regs (off + 0x200 * vfe))
  have hm : u16 mask < 2 ^ 32 := lt_trans (u16_lt mask) (by norm_num)
  simpa using Nat.or_lt_two_pow hr hm

/-! ## Start and stop of one entry -/

/-- C4: for every valid vfe, every lane other than RDI2, every channel `c` in
[0,15] and every prior command state, after a successful `start_frame_boundary`
on the entry (lane, c) the two bits of the primary command word at offset
`2*(c mod 4) + 8*vfe` read 01; after a subsequent `stop_immediately` on the same
entry they read 10 and bit `c` of the lane's CID-mask register is 0. -/
theorem start_then_stop_immediately (hw : ispif_hwreg) (s : ispif_device) (lrc : Int)
    (vfe lane c csid : Nat)
    (hvfe : vfe = VFE0 ∨ vfe = VFE1)
    (hvalid : msm_ispif_is_intf_valid hw s.csid_version vfe = true)
    (hlane : lane = PIX0 ∨ lane = RDI0 ∨ lane = PIX1 ∨ lane = RDI1)
    (hc : c ≤ 15)
    (hstart : (msm_ispif_start_frame_boundary hw lrc s ⟨vfe, [⟨lane, [c], csid⟩]⟩).1 = 0) :
    cmd_field
        (((msm_ispif_start_frame_boundary hw lrc s
            ⟨vfe, [⟨lane, [c], csid⟩]⟩).2.applied_intf_cmd vfe).intf_cmd)
        (2 * (c % 4) + 8 * vfe) = 1
    ∧ cmd_field
        (((msm_ispif_stop_immediately hw
            (msm_ispif_start_frame_boundary hw lrc s ⟨vfe, [⟨lane, [c], csid⟩]⟩).2
            ⟨vfe, [⟨lane, [c], csid⟩]⟩).2.applied_intf_cmd vfe).intf_cmd)
        (2 * (c % 4) + 8 * vfe) = 2
    ∧ ∀ off, intf_cid_mask_addr hw lane = some off →
        (msm_camera_io_r (off + 0x200 * vfe)
          (msm_ispif_stop_immediately hw
            (msm_ispif_start_frame_boundary hw lrc s ⟨vfe, [⟨lane, [c], csid⟩]⟩).2
            ⟨vfe, [⟨lane, [c], csid⟩]⟩).2).testBit c = false := by
  have hB : lane ≠ RDI2 := by
    rcases hlane with h | h | h | h <;> simp [h, PIX0, RDI0, PIX1, RDI1, RDI2]
  have hl256 : lane < 256 := by
    rcases hlane with h | h | h | h <;> simp [h, PIX0, RDI0, PIX1, RDI1]
  have hv256 : vfe < 256 := by rcases hvfe with h | h <;> simp [h, VFE0, VFE1]
  -- the reset succeeded, so the start is the enable command on the reset device
  have hr : (msm_ispif_intf_reset hw lrc s ⟨vfe, [⟨lane, [c], csid⟩]⟩).1 = 0 := by
    by_contra hne
    unfold msm_ispif_start_frame_boundary at hstart
    dsimp only at hstart
    rw [if_pos hne] at hstart
    exact hne hstart
  have hs1 : (msm_ispif_start_frame_boundary hw lrc s ⟨vfe, [⟨lane, [c], csid⟩]⟩).2
      = msm_ispif_intf_cmd hw (msm_ispif_intf_reset hw lrc s ⟨vfe, [⟨lane, [c], csid⟩]⟩).2
          ISPIF_INTF_CMD_ENABLE_FRAME_BOUNDARY ⟨vfe, [⟨lane, [c], csid⟩]⟩ := by
    unfold msm_ispif_start_frame_boundary
    dsimp only
    rw [if_neg (by simp [hr])]
  have hpres := intf_reset_preserves hw lrc s ⟨vfe, [⟨lane, [c], csid⟩]⟩
  have hvalid1 : msm_ispif_is_intf_valid hw
      (msm_ispif_intf_reset hw lrc s ⟨vfe, [⟨lane, [c], csid⟩]⟩).2.csid_version vfe = true := by
    rw [hpres.1]; exact hvalid
  rw [hs1]
  set s1 := msm_ispif_intf_cmd hw (msm_ispif_intf_reset hw lrc s ⟨vfe, [⟨lane, [c], csid⟩]⟩).2
          ISPIF_INTF_CMD_ENABLE_FRAME_BOUNDARY ⟨vfe, [⟨lane, [c], csid⟩]⟩ with hs1def
  have hvalid2 : msm_ispif_is_intf_valid hw s1.csid_version vfe = true := by
    rw [hs1def, intf_cmd_version]; exact hvalid1
  have hstop : (msm_ispif_stop_immediately hw s1 ⟨vfe, [⟨lane, [c], csid⟩]⟩).2
      = msm_ispif_enable_intf_cids hw
          (msm_ispif_intf_cmd hw s1 ISPIF_INTF_CMD_DISABLE_IMMEDIATELY
            ⟨vfe, [⟨lane, [c], csid⟩]⟩)
          lane (msm_ispif_get_cids_mask_from_cfg ⟨lane, [c], csid⟩) vfe 0 := by
    simp [msm_ispif_stop_immediately]
  have hvalid3 : msm_ispif_is_intf_valid hw
      (msm_ispif_intf_cmd hw s1 ISPIF_INTF_CMD_DISABLE_IMMEDIATELY
        ⟨vfe, [⟨lane, [c], csid⟩]⟩).csid_version vfe = true := by
    rw [intf_cmd_version]; exact hvalid2
  refine ⟨?_, ?_, ?_⟩
  · exact intf_cmd_field_shared hw _ vfe lane c 1 csid hvfe hvalid1 hB (by norm_num)
  · rw [hstop, (enable_intf_cids_preserves hw _ _ _ _ _).2]
    exact intf_cmd_field_shared hw s1 vfe lane c 2 csid hvfe hvalid2 hB (by norm_num)
  · intro off hoff
    rw [hstop, enable_intf_cids_clear_read hw _ lane _ vfe off hvalid3 hl256 hv256 hoff,
      Nat.testBit_and, testBit_not32, testBit_u16, cids_mask_testBit]
    have hc16 : c < 16 := by omega
    simp [hc16]

/-- Evaluation of C4 on VFE1 of a V3 device, lane RDI0, channel 5 (vc = 1): the
start succeeds, bits [10..12) read 01, then 10 after the stop, and bit 5 of the
RDI0 CID-mask register of VFE1 (set before) is cleared. -/
theorem start_then_stop_immediately_witness :
    (msm_camera_io_r (hwreg_v2.ISPIF_RDI_0_INTF_CID_MASK_ADDR + 0x200 * VFE1) idle_v3).testBit 5
        = true
    ∧ cmd_field
        (((msm_ispif_start_frame_boundary hwreg_v2 1 idle_v3
            ⟨VFE1, [⟨RDI0, [5], 0⟩]⟩).2.applied_intf_cmd VFE1).intf_cmd)
        (2 * (5 % 4) + 8 * VFE1) = 1
    ∧ cmd_field
        (((msm_ispif_stop_immediately hwreg_v2
            (msm_ispif_start_frame_boundary hwreg_v2 1 idle_v3 ⟨VFE1, [⟨RDI0, [5], 0⟩]⟩).2
            ⟨VFE1, [⟨RDI0, [5], 0⟩]⟩).2.applied_intf_cmd VFE1).intf_cmd)
        (2 * (5 % 4) + 8 * VFE1) = 2
    ∧ (msm_camera_io_r (hwreg_v2.ISPIF_RDI_0_INTF_CID_MASK_ADDR + 0x200 * VFE1)
          (msm_ispif_stop_immediately hwreg_v2
            (msm_ispif_start_frame_boundary hwreg_v2 1 idle_v3 ⟨VFE1, [⟨RDI0, [5], 0⟩]⟩).2
            ⟨VFE1, [⟨RDI0, [5], 0⟩]⟩).2).testBit 5 = false :=
  have h := start_then_stop_immediately hwreg_v2 idle_v3 1 VFE1 RDI0 5 0 (Or.inr rfl)
    (by decide) (Or.inr (Or.inl rfl)) (by decide) (by decide)
  ⟨by decide, h.1, h.2.1, h.2.2 _ rfl⟩

/-! ## Interface validation -/

/-- On an interface that is not valid for the version, `msm_ispif_config` fails
with `-EINVAL` before any register write. -/
theorem config_invalid_intf (hw : ispif_hwreg) (s : ispif_device)
    (params : msm_ispif_param_data)
    (h : msm_ispif_is_intf_valid hw s.csid_version params.vfe_intf = false) :
    msm_ispif_config hw s params = (-EINVAL, s) := by
  unfold msm_ispif_config
  simp [h]

/-- A version that is supported and is not V3 (so at most V2) makes VFE1 an
invalid interface. -/
theorem vfe1_invalid_below_v3 (hw : ispif_hwreg) (v : Nat)
    (hv : v < hw.CSID_VERSION_V2 ∨ v = hw.CSID_VERSION_V2) :
    msm_ispif_is_intf_valid hw v VFE1 = false := by
  have : v ≤ hw.CSID_VERSION_V2 := by omega
  simp [msm_ispif_is_intf_valid, this, VFE1, VFE0, u8]

/-- C5 (evaluation at the failing input): on a device initialised with version
V2, VFE1 is not a valid interface and `msm_ispif_config` fails with `-EINVAL`,
but `msm_ispif_start_frame_boundary` with vfe = VFE1 and one RDI0 entry, when
the reset completion fires, returns 0 after writing the reset word to
`ISPIF_RST_CMD_1_ADDR`; when the completion does not fire it returns `-EIO`, and
with no entry it returns 0. -/
theorem start_frame_boundary_vfe1_on_v2 :
    msm_ispif_is_intf_valid hwreg_v2 init_done_v2.csid_version VFE1 = false
    ∧ (msm_ispif_config hwreg_v2 init_done_v2 ⟨VFE1, [⟨RDI0, [0], 0⟩]⟩).1 = -EINVAL
    ∧ (msm_ispif_start_frame_boundary hwreg_v2 1 init_done_v2 ⟨VFE1, [⟨RDI0, [0], 0⟩]⟩).1 = 0
    ∧ (msm_ispif_start_frame_boundary hwreg_v2 1 init_done_v2 ⟨VFE1, [⟨RDI0, [0], 0⟩]⟩).2.wlog
        = init_done_v2.wlog ++ [(hwreg_v2.ISPIF_RST_CMD_1_ADDR, 0xC1)]
    ∧ (msm_ispif_start_frame_boundary hwreg_v2 0 init_done_v2 ⟨VFE1, [⟨RDI0, [0], 0⟩]⟩).1 = - EIO
    ∧ (msm_ispif_start_frame_boundary hwreg_v2 1 init_done_v2 ⟨VFE1, []⟩).1 = 0 := by
  decide

/-! ## Configure -/

theorem intf_cid_mask_addr_isSome (hw : ispif_hwreg) (l : Nat) (hl : l < INTF_MAX) :
    intf_cid_mask_addr hw l = some (cid_mask_reg hw 0 l) := by
  unfold INTF_MAX at hl
  interval_cases l <;> rfl

theorem cid_mask_reg_eq (hw : ispif_hwreg) (vfe l : Nat) :
    cid_mask_reg hw vfe l = cid_mask_reg hw 0 l + 0x200 * vfe := by
  simp [cid_mask_reg]

theorem intf_status_addr_isSome (hw : ispif_hwreg) (l : Nat) (hl : l < INTF_MAX) :
    intf_status_addr hw l = some (status_reg hw 0 l) := by
  unfold INTF_MAX at hl
  interval_cases l <;> rfl

theorem status_reg_eq (hw : ispif_hwreg) (vfe l : Nat) :
    status_reg hw vfe l = status_reg hw 0 l + 0x200 * vfe := by
  simp [status_reg]

theorem sel_csid_core_version (hw : ispif_hwreg) (s : ispif_device) (l csid vfe : Nat) :
    (msm_ispif_sel_csid_core hw s l csid vfe).csid_version = s.csid_version := by
  unfold msm_ispif_sel_csid_core
  dsimp only
  split_ifs <;> rfl

theorem sel_csid_core_regs (hw : ispif_hwreg) (s : ispif_device) (l csid vfe a : Nat)
    (hvfe : vfe < 256) (ha : a ≠ hw.ISPIF_INPUT_SEL_ADDR + 0x200 * vfe) :
    (msm_ispif_sel_csid_core hw s l csid vfe).regs a = s.regs a := by
  unfold msm_ispif_sel_csid_core
  simp only [u8_of_lt vfe hvfe, io_w_mb_eq]
  split_ifs <;> simp [Function.update_noteq ha]

theorem enable_intf_cids_regs (hw : ispif_hwreg) (s : ispif_device)
    (l mask vfe enable a : Nat) (hl : l < INTF_MAX) (hvfe : vfe < 256)
    (ha : a ≠ cid_mask_reg hw vfe l) :
    (msm_ispif_enable_intf_cids hw s l mask vfe enable).regs a = s.regs a := by
  have hl256 : l < 256 := lt_trans hl (by decide)
  unfold msm_ispif_enable_intf_cids
  simp only [u8_of_lt l hl256, u8_of_lt vfe hvfe, io_w_mb_eq, intf_cid_mask_addr_isSome hw l hl]
  rw [cid_mask_reg_eq hw vfe l] at ha
  split_ifs <;> simp [Function.update_noteq ha]

theorem config_guard_ok (hw : ispif_hwreg) (v vfe l : Nat)
    (hvfe : vfe = VFE0 ∨ vfe = VFE1)
    (hvalid : msm_ispif_is_intf_valid hw v vfe = true) (hl : l < INTF_MAX) :
    ¬ (l ≥ INTF_MAX ∨ vfe ≥ VFE_MAX ∨ (v ≤ hw.CSID_VERSION_V2 ∧ vfe > VFE0)) := by
  have hv : vfe < 2 := by rcases hvfe with h | h <;> simp [h, VFE0, VFE1]
  have h8 : u8 vfe = vfe := u8_of_lt vfe (by omega)
  unfold msm_ispif_is_intf_valid at hvalid
  rw [h8] at hvalid
  simp only [VFE0, VFE_MAX] at *
  intro h
  rcases h with h | h | ⟨h1, h2⟩
  · omega
  · omega
  · rw [if_pos ⟨h1, by omega⟩] at hvalid
    exact Bool.false_ne_true hvalid

theorem validate_intf_status_eq (hw : ispif_hwreg) (s : ispif_device) (l vfe : Nat)
    (hvfe : vfe = VFE0 ∨ vfe = VFE1)
    (hvalid : msm_ispif_is_intf_valid hw s.csid_version vfe = true) (hl : l < INTF_MAX) :
    msm_ispif_validate_intf_status hw s l vfe
      = if lane_idle hw s vfe l then 0 else -EBUSY := by
  have hv : vfe < 256 := by rcases hvfe with h | h <;> simp [h, VFE0, VFE1]
  have hl256 : l < 256 := lt_trans hl (by decide)
  unfold msm_ispif_validate_intf_status lane_idle
  simp only [u8_of_lt l hl256, u8_of_lt vfe hv, hvalid, intf_status_addr_isSome hw l hl]
  rw [if_neg (by simp)]
  have hst := status_reg_eq hw vfe l
  by_cases h : msm_camera_io_r (status_reg hw vfe l) s &&& 0xf = 0xf
  · have h2 := h
    rw [hst] at h2
    simp [h, h2]
  · have h2 := h
    rw [hst] at h2
    simp [h, h2]

theorem config_loop_version (hw : ispif_hwreg) (vfe : Nat)
    (es : List msm_ispif_params_entry) :
    ∀ s : ispif_device, (msm_ispif_config_loop hw vfe es s).2.csid_version = s.csid_version := by
  induction es with
  | nil => intro s; rfl
  | cons e es ih =>
    intro s
    rw [msm_ispif_config_loop]
    dsimp only
    split_ifs
    · rfl
    · rfl
    · rw [ih, (enable_intf_cids_preserves hw _ _ _ _ _).1, sel_csid_core_version]

/-- Frame condition of the configure loop: a register that is neither the
input-select register nor the CID mask of a processed lane keeps its value. -/
theorem config_loop_regs (hw : ispif_hwreg) (vfe a : Nat)
    (ha : a ≠ hw.ISPIF_INPUT_SEL_ADDR + 0x200 * vfe)
    (es : List msm_ispif_params_entry) :
    ∀ s : ispif_device,
      (∀ x ∈ es, x.intftype < INTF_MAX → a ≠ cid_mask_reg hw vfe x.intftype) →
      (msm_ispif_config_loop hw vfe es s).2.regs a = s.regs a := by
  induction es with
  | nil => intro s _; rfl
  | cons e es ih =>
    intro s hes
    rw [msm_ispif_config_loop]
    dsimp only
    split_ifs with hg hrc
    · rfl
    · rfl
    · have hl : e.intftype < INTF_MAX := by
        by_contra hc; exact hg (Or.inl (not_lt.mp hc))
      have hv : vfe < 256 := by
        have : vfe < VFE_MAX := by
          by_contra hc; exact hg (Or.inr (Or.inl (not_lt.mp hc)))
        exact lt_trans this (by decide)
      rw [ih _ (fun x hx => hes x (List.mem_cons_of_mem _ hx)),
        enable_intf_cids_regs hw _ _ _ _ _ a hl hv (hes e (List.mem_cons_self _ _) hl),
        sel_csid_core_regs hw s _ _ _ a hv ha]

theorem quiesce_version (hw : ispif_hwreg) (s : ispif_device) :
    (msm_ispif_config_quiesce hw s).csid_version = s.csid_version := rfl

theorem quiesce_regs (hw : ispif_hwreg) (s : ispif_device) (vfe a : Nat)
    (ha : a ∉ config_other_regs hw vfe) :
    (msm_ispif_config_quiesce hw s).regs a = s.regs a := by
  simp only [config_other_regs, List.mem_cons, List.mem_singleton, not_or, List.not_mem_nil,
    not_false_eq_true, and_true] at ha
  obtain ⟨_, h1, h2, h3, _⟩ := ha
  simp [msm_ispif_config_quiesce, Function.update_noteq h1, Function.update_noteq h2,
    Function.update_noteq h3]

theorem unmask_regs (hw : ispif_hwreg) (s : ispif_device) (vfe a : Nat)
    (ha : a ∉ config_other_regs hw vfe) :
    (msm_ispif_config_unmask hw s).regs a = s.regs a := by
  simp only [config_other_regs, List.mem_cons, List.mem_singleton, not_or, List.not_mem_nil,
    not_false_eq_true, and_true] at ha
  obtain ⟨_, h1, h2, h3, h4, h5, h6, h7⟩ := ha
  simp [msm_ispif_config_unmask, Function.update_noteq h1, Function.update_noteq h2,
    Function.update_noteq h3, Function.update_noteq h4, Function.update_noteq h5,
    Function.update_noteq h6, Function.update_noteq h7]

theorem io_r_congr (a : Nat) (s t : ispif_device) (h : t.regs a = s.regs a) :
    msm_camera_io_r a t = msm_camera_io_r a s := by
  simp [msm_camera_io_r, h]

theorem lane_idle_congr (hw : ispif_hwreg) (s t : ispif_device) (vfe l : Nat)
    (h : t.regs (status_reg hw vfe l) = s.regs (status_reg hw vfe l)) :
    lane_idle hw t vfe l ↔ lane_idle hw s vfe l := by
  simp [lane_idle, msm_camera_io_r, h]

/-- One iteration of the configure loop on a valid entry. -/
theorem config_loop_cons (hw : ispif_hwreg) (vfe : Nat) (e : msm_ispif_params_entry)
    (es : List msm_ispif_params_entry) (s : ispif_device)
    (hvfe : vfe = VFE0 ∨ vfe = VFE1)
    (hvalid : msm_ispif_is_intf_valid hw s.csid_version vfe = true)
    (hl : e.intftype < INTF_MAX) :
    msm_ispif_config_loop hw vfe (e :: es) s
      = if lane_idle hw s vfe e.intftype then
          msm_ispif_config_loop hw vfe es
            (msm_ispif_enable_intf_cids hw
              (msm_ispif_sel_csid_core hw s e.intftype e.csid vfe)
              e.intftype (msm_ispif_get_cids_mask_from_cfg e) vfe 1)
        else (-EBUSY, s) := by
  rw [msm_ispif_config_loop]
  dsimp only
  rw [if_neg (config_guard_ok hw s.csid_version vfe e.intftype hvfe hvalid hl),
    validate_intf_status_eq hw s e.intftype vfe hvfe hvalid hl]
  by_cases h : lane_idle hw s vfe e.intftype
  · simp [h]
  · simp [h, EBUSY]

/-- One iteration of the configure loop leaves every lane status register as it
was. -/
theorem config_step_status (hw : ispif_hwreg) (vfe : Nat) (e : msm_ispif_params_entry)
    (s : ispif_device) (l : Nat)
    (hvfe : vfe = VFE0 ∨ vfe = VFE1) (hlayout : config_layout_ok hw vfe)
    (hl : e.intftype < INTF_MAX) (hl2 : l < INTF_MAX) :
    (msm_ispif_enable_intf_cids hw
        (msm_ispif_sel_csid_core hw s e.intftype e.csid vfe)
        e.intftype (msm_ispif_get_cids_mask_from_cfg e) vfe 1).regs (status_reg hw vfe l)
      = s.regs (status_reg hw vfe l) := by
  have hv : vfe < 256 := by rcases hvfe with h | h <;> simp [h, VFE0, VFE1]
  have h1 := hlayout.2.2.1 l hl2 e.intftype hl
  have h2 : status_reg hw vfe l ≠ hw.ISPIF_INPUT_SEL_ADDR + 0x200 * vfe := by
    intro h
    exact hlayout.2.2.2 l hl2 (by simp [config_other_regs, h])
  rw [enable_intf_cids_regs hw _ _ _ _ _ _ hl hv h1, sel_csid_core_regs hw s _ _ _ _ hv h2]

/-- The configure loop stops at the first entry whose lane is not idle: it
returns `-EBUSY` in the state reached after the entries before it. -/
theorem config_loop_busy (hw : ispif_hwreg) (vfe : Nat) (e : msm_ispif_params_entry)
    (post : List msm_ispif_params_entry)
    (hvfe : vfe = VFE0 ∨ vfe = VFE1) (hlayout : config_layout_ok hw vfe)
    (pre : List msm_ispif_params_entry) :
    ∀ s : ispif_device,
      msm_ispif_is_intf_valid hw s.csid_version vfe = true →
      (∀ x ∈ pre ++ e :: post, x.intftype < INTF_MAX) →
      (∀ x ∈ pre, lane_idle hw s vfe x.intftype) →
      ¬ lane_idle hw s vfe e.intftype →
      msm_ispif_config_loop hw vfe (pre ++ e :: post) s
        = (-EBUSY, (msm_ispif_config_loop hw vfe pre s).2) := by
  induction pre with
  | nil =>
    intro s hvalid hlanes _ hbusy
    have hl : e.intftype < INTF_MAX := hlanes e (by simp)
    rw [List.nil_append, config_loop_cons hw vfe e post s hvfe hvalid hl, if_neg hbusy]
    rfl
  | cons x pre ih =>
    intro s hvalid hlanes hidle hbusy
    have hlx : x.intftype < INTF_MAX := hlanes x (by simp)
    have hle : e.intftype < INTF_MAX := hlanes e (by simp)
    have hix : lane_idle hw s vfe x.intftype := hidle x (List.mem_cons_self _ _)
    rw [List.cons_append, config_loop_cons hw vfe x _ s hvfe hvalid hlx, if_pos hix,
      config_loop_cons hw vfe x pre s hvfe hvalid hlx, if_pos hix]
    apply ih
    · rw [(enable_intf_cids_preserves hw _ _ _ _ _).1, sel_csid_core_version]
      exact hvalid
    · intro y hy
      exact hlanes y (by simp only [List.cons_append, List.mem_cons]; exact Or.inr hy)
    · intro y hy
      have hly : y.intftype < INTF_MAX := hlanes y (by simp [hy])
      rw [lane_idle_congr hw s _ vfe y.intftype
        (config_step_status hw vfe x s y.intftype hvfe hlayout hlx hly)]
      exact hidle y (List.mem_cons_of_mem _ hy)
    · rw [lane_idle_congr hw s _ vfe e.intftype
        (config_step_status hw vfe x s e.intftype hvfe hlayout hlx hle)]
      exact hbusy

/-- C6: for every configure request with a valid vfe and pairwise distinct valid
lanes whose first non-idle entry is `e` (the entries `pre` before it are idle),
`msm_ispif_config` fails with `-EBUSY`, the device is left in the state reached
after processing only the entries before `e` (no register write is made for `e`
or any later entry), and the CID-mask register of the lane of `e`, and of every
later entry, holds the value it had before the call. -/
theorem config_busy (hw : ispif_hwreg) (s : ispif_device) (vfe : Nat)
    (pre : List msm_ispif_params_entry) (e : msm_ispif_params_entry)
    (post : List msm_ispif_params_entry)
    (hvfe : vfe = VFE0 ∨ vfe = VFE1)
    (hvalid : msm_ispif_is_intf_valid hw s.csid_version vfe = true)
    (hlanes : ∀ x ∈ pre ++ e :: post, x.intftype < INTF_MAX)
    (hdistinct : ((pre ++ e :: post).map (fun x => x.intftype)).Nodup)
    (hlayout : config_layout_ok hw vfe)
    (hidle : ∀ x ∈ pre, lane_idle hw s vfe x.intftype)
    (hbusy : ¬ lane_idle hw s vfe e.intftype) :
    (msm_ispif_config hw s ⟨vfe, pre ++ e :: post⟩).1 = -EBUSY
    ∧ (msm_ispif_config hw s ⟨vfe, pre ++ e :: post⟩).2
        = (msm_ispif_config_loop hw vfe pre (msm_ispif_config_quiesce hw s)).2
    ∧ ∀ x ∈ e :: post,
        msm_camera_io_r (cid_mask_reg hw vfe x.intftype)
            (msm_ispif_config hw s ⟨vfe, pre ++ e :: post⟩).2
          = msm_camera_io_r (cid_mask_reg hw vfe x.intftype) s := by
  have hq : ∀ l, l < INTF_MAX →
      (lane_idle hw (msm_ispif_config_quiesce hw s) vfe l ↔ lane_idle hw s vfe l) := by
    intro l hl
    exact lane_idle_congr hw s _ vfe l (quiesce_regs hw s vfe _ (hlayout.2.2.2 l hl))
  have hloop := config_loop_busy hw vfe e post hvfe hlayout pre (msm_ispif_config_quiesce hw s)
    hvalid hlanes
    (fun x hx => (hq _ (hlanes x (by simp [hx]))).mpr (hidle x hx))
    (fun h => hbusy ((hq _ (hlanes e (by simp))).mp h))
  have hcfg : msm_ispif_config hw s ⟨vfe, pre ++ e :: post⟩
      = (-EBUSY, (msm_ispif_config_loop hw vfe pre (msm_ispif_config_quiesce hw s)).2) := by
    unfold msm_ispif_config
    dsimp only
    rw [if_neg (by simp [hvalid]), hloop, if_pos (by simp [EBUSY])]
  rw [hcfg]
  refine ⟨rfl, rfl, ?_⟩
  intro x hx
  have hlx : x.intftype < INTF_MAX := hlanes x (by simp only [List.mem_append]; exact Or.inr hx)
  have hsel : cid_mask_reg hw vfe x.intftype ≠ hw.ISPIF_INPUT_SEL_ADDR + 0x200 * vfe := by
    intro h
    exact hlayout.2.1 _ hlx (by simp [config_other_regs, h])
  rw [List.map_append, List.nodup_append] at hdistinct
  have hdisj := hdistinct.2.2
  apply io_r_congr
  dsimp only
  rw [config_loop_regs hw vfe _ hsel pre _ ?_, quiesce_regs hw s vfe _ (hlayout.2.1 _ hlx)]
  intro y hy hly heq
  have hxy : x.intftype = y.intftype := hlayout.1 _ hlx _ hly heq
  exact hdisj (List.mem_map_of_mem _ hy) (by rw [← hxy]; exact List.mem_map_of_mem _ hx)

/-- A configure loop that returns 0 has met only valid lanes. -/
theorem config_loop_ok_lanes (hw : ispif_hwreg) (vfe : Nat)
    (es : List msm_ispif_params_entry) :
    ∀ s : ispif_device, (msm_ispif_config_loop hw vfe es s).1 = 0 →
      ∀ x ∈ es, x.intftype < INTF_MAX := by
  induction es with
  | nil => intro s _ x hx; simp at hx
  | cons e es ih =>
    intro s hok x hx
    rw [msm_ispif_config_loop] at hok
    dsimp only at hok
    split_ifs at hok with hg hrc
    · simp [EINVAL] at hok
    · exact absurd hok hrc
    · rcases List.mem_cons.mp hx with h | h
      · rw [h]
        by_contra hc; exact hg (Or.inl (not_lt.mp hc))
      · exact ih _ hok x h

/-- After a configure loop that returns 0 over pairwise distinct lanes, the
CID-mask register of every entry holds its previous value OR the entry's mask. -/
theorem config_loop_sets_mask (hw : ispif_hwreg) (vfe : Nat)
    (hvfe : vfe = VFE0 ∨ vfe = VFE1) (hlayout : config_layout_ok hw vfe)
    (es : List msm_ispif_params_entry) :
    ∀ s : ispif_device,
      msm_ispif_is_intf_valid hw s.csid_version vfe = true →
      (es.map (fun x => x.intftype)).Nodup →
      (msm_ispif_config_loop hw vfe es s).1 = 0 →
      ∀ e ∈ es,
        msm_camera_io_r (cid_mask_reg hw vfe e.intftype) (msm_ispif_config_loop hw vfe es s).2
          = msm_camera_io_r (cid_mask_reg hw vfe e.intftype) s
              ||| msm_ispif_get_cids_mask_from_cfg e := by
  have hv : vfe < 256 := by rcases hvfe with h | h <;> simp [h, VFE0, VFE1]
  induction es with
  | nil => intro s _ _ _ e he; simp at he
  | cons x rest ih =>
    intro s hvalid hnd hok e he
    have hlanes := config_loop_ok_lanes hw vfe (x :: rest) s hok
    have hlx : x.intftype < INTF_MAX := hlanes x (List.mem_cons_self _ _)
    have hle : e.intftype < INTF_MAX := hlanes e he
    rw [List.map_cons, List.nodup_cons] at hnd
    have hsel : cid_mask_reg hw vfe e.intftype ≠ hw.ISPIF_INPUT_SEL_ADDR + 0x200 * vfe := by
      intro h
      exact hlayout.2.1 _ hle (by simp [config_other_regs, h])
    rw [config_loop_cons hw vfe x rest s hvfe hvalid hlx] at hok ⊢
    by_cases hidle : lane_idle hw s vfe x.intftype
    · rw [if_pos hidle] at hok ⊢
      have hvalid1 : msm_ispif_is_intf_valid hw
          (msm_ispif_sel_csid_core hw s x.intftype x.csid vfe).csid_version vfe = true := by
        rw [sel_csid_core_version]; exact hvalid
      have hvalid2 : msm_ispif_is_intf_valid hw
          (msm_ispif_enable_intf_cids hw (msm_ispif_sel_csid_core hw s x.intftype x.csid vfe)
            x.intftype (msm_ispif_get_cids_mask_from_cfg x) vfe 1).csid_version vfe = true := by
        rw [(enable_intf_cids_preserves hw _ _ _ _ _).1]; exact hvalid1
      by_cases hex : e.intftype = x.intftype
      · -- the entry processed in this iteration
        have hee : e = x := by
          rcases List.mem_cons.mp he with h | h
          · exact h
          · exact absurd (by rw [← hex]; exact List.mem_map_of_mem _ h) hnd.1
        subst hee
        have hframe : (msm_ispif_config_loop hw vfe rest
            (msm_ispif_enable_intf_cids hw (msm_ispif_sel_csid_core hw s e.intftype e.csid vfe)
              e.intftype (msm_ispif_get_cids_mask_from_cfg e) vfe 1)).2.regs
              (cid_mask_reg hw vfe e.intftype)
            = (msm_ispif_enable_intf_cids hw (msm_ispif_sel_csid_core hw s e.intftype e.csid vfe)
              e.intftype (msm_ispif_get_cids_mask_from_cfg e) vfe 1).regs
              (cid_mask_reg hw vfe e.intftype) := by
          apply config_loop_regs hw vfe _ hsel rest
          intro y hy hly heq
          have := hlayout.1 _ hle _ hly heq
          exact hnd.1 (by rw [this]; exact List.mem_map_of_mem _ hy)
        rw [io_r_congr _ _ _ hframe, cid_mask_reg_eq hw vfe e.intftype,
          enable_intf_cids_set_read hw _ e.intftype _ vfe _ hvalid1 (lt_trans hle (by decide)) hv
            (intf_cid_mask_addr_isSome hw e.intftype hle),
          ← cid_mask_reg_eq hw vfe e.intftype,
          io_r_congr _ _ _ (sel_csid_core_regs hw s e.intftype e.csid vfe _ hv hsel),
          show u16 (msm_ispif_get_cids_mask_from_cfg e) = msm_ispif_get_cids_mask_from_cfg e
            from Nat.mod_eq_of_lt (cids_mask_lt e)]
      · -- an entry processed later
        have her : e ∈ rest := by
          rcases List.mem_cons.mp he with h | h
          · exact absurd (by rw [h]) hex
          · exact h
        rw [ih _ hvalid2 hnd.2 hok e her]
        congr 1
        apply io_r_congr
        have hne : cid_mask_reg hw vfe e.intftype ≠ cid_mask_reg hw vfe x.intftype :=
          fun h => hex (hlayout.1 _ hle _ hlx h)
        rw [enable_intf_cids_regs hw _ _ _ _ _ _ hlx hv hne,
          sel_csid_core_regs hw s _ _ _ _ hv hsel]
    · rw [if_neg hidle] at hok
      simp [EBUSY] at hok

theorem config_ok_inv (hw : ispif_hwreg) (s : ispif_device) (params : msm_ispif_param_data)
    (hok : (msm_ispif_config hw s params).1 = 0) :
    msm_ispif_is_intf_valid hw s.csid_version params.vfe_intf = true
    ∧ (msm_ispif_config_loop hw params.vfe_intf params.entries
        (msm_ispif_config_quiesce hw s)).1 = 0
    ∧ (msm_ispif_config hw s params).2
        = msm_ispif_config_unmask hw
            (msm_ispif_config_loop hw params.vfe_intf params.entries
              (msm_ispif_config_quiesce hw s)).2 := by
  unfold msm_ispif_config at hok ⊢
  dsimp only at hok ⊢
  by_cases hvalid : msm_ispif_is_intf_valid hw s.csid_version params.vfe_intf = false
  · rw [if_pos hvalid] at hok
    simp [EINVAL] at hok
  · rw [if_neg hvalid] at hok ⊢
    by_cases hr : (msm_ispif_config_loop hw params.vfe_intf params.entries
        (msm_ispif_config_quiesce hw s)).1 ≠ 0
    · rw [if_pos hr] at hok
      exact absurd hok hr
    · rw [if_neg hr]
      exact ⟨by simpa using hvalid, by simpa using hr, rfl⟩

/-- C7 (amended to channel ids in [0,15]): the mask computed by
`msm_ispif_get_cids_mask_from_cfg` has bit `c` set exactly for the channels `c`
of the entry, and after a successful configure of a request with pairwise
distinct lanes that contains the entry, the lane's CID-mask register equals its
previous value OR that mask, so bit `c` is set for every channel of the entry. -/
theorem config_enables_cids (hw : ispif_hwreg) (s : ispif_device) (vfe : Nat)
    (es : List msm_ispif_params_entry) (e : msm_ispif_params_entry)
    (hvfe : vfe = VFE0 ∨ vfe = VFE1)
    (hlayout : config_layout_ok hw vfe)
    (hdistinct : (es.map (fun x => x.intftype)).Nodup)
    (he : e ∈ es)
    (hcids : ∀ c ∈ e.cids, c ≤ 15)
    (hok : (msm_ispif_config hw s ⟨vfe, es⟩).1 = 0) :
    (∀ c, (msm_ispif_get_cids_mask_from_cfg e).testBit c = true ↔ c ∈ e.cids)
    ∧ msm_camera_io_r (cid_mask_reg hw vfe e.intftype) (msm_ispif_config hw s ⟨vfe, es⟩).2
        = msm_camera_io_r (cid_mask_reg hw vfe e.intftype) s
            ||| msm_ispif_get_cids_mask_from_cfg e
    ∧ ∀ c ∈ e.cids,
        (msm_camera_io_r (cid_mask_reg hw vfe e.intftype)
          (msm_ispif_config hw s ⟨vfe, es⟩).2).testBit c = true := by
  have hmask : ∀ c, (msm_ispif_get_cids_mask_from_cfg e).testBit c = true ↔ c ∈ e.cids := by
    intro c
    rw [cids_mask_testBit]
    constructor
    · intro h
      simp only [Bool.and_eq_true, decide_eq_true_eq] at h
      exact h.2
    · intro h
      have := hcids c h
      simp only [Bool.and_eq_true, decide_eq_true_eq]
      exact ⟨by omega, h⟩
  obtain ⟨hvalid, hloop, hst⟩ := config_ok_inv hw s ⟨vfe, es⟩ hok
  dsimp only at hvalid hloop hst
  have hle : e.intftype < INTF_MAX := config_loop_ok_lanes hw vfe es _ hloop e he
  have hreg : msm_camera_io_r (cid_mask_reg hw vfe e.intftype) (msm_ispif_config hw s ⟨vfe, es⟩).2
        = msm_camera_io_r (cid_mask_reg hw vfe e.intftype) s
            ||| msm_ispif_get_cids_mask_from_cfg e := by
    rw [hst, io_r_congr _ _ _ (unmask_regs hw _ vfe _ (hlayout.2.1 _ hle)),
      config_loop_sets_mask hw vfe hvfe hlayout es (msm_ispif_config_quiesce hw s) hvalid hdistinct
        hloop e he,
      io_r_congr _ _ _ (quiesce_regs hw s vfe _ (hlayout.2.1 _ hle))]
  refine ⟨hmask, hreg, ?_⟩
  intro c hc
  rw [hreg, Nat.testBit_or, (hmask c).mpr hc, Bool.or_true]

/-- C7 as stated fails for a channel id in [16,31]: the mask is a `uint16_t`, so
for the entry (RDI0, channel 16) it is 0, and after a successful configure bit 16
of the lane's CID-mask register is still 0. -/
theorem cids_mask_drops_channel_16 :
    (∀ c ∈ (⟨RDI0, [16], 0⟩ : msm_ispif_params_entry).cids, c ≤ 31)
    ∧ 16 ∈ (⟨RDI0, [16], 0⟩ : msm_ispif_params_entry).cids
    ∧ (msm_ispif_get_cids_mask_from_cfg ⟨RDI0, [16], 0⟩).testBit 16 = false
    ∧ (msm_ispif_config hwreg_v2 idle_v3 ⟨VFE0, [⟨RDI0, [16], 0⟩]⟩).1 = 0
    ∧ (msm_camera_io_r (cid_mask_reg hwreg_v2 VFE0 RDI0)
        (msm_ispif_config hwreg_v2 idle_v3 ⟨VFE0, [⟨RDI0, [16], 0⟩]⟩).2).testBit 16 = false := by
  decide

/-- Evaluation of the amended C7 on VFE1 of an idle V3 device: a request with
lanes PIX0 and RDI0 succeeds and the RDI0 CID-mask register gains bits 2 and 5. -/
theorem config_enables_cids_witness :
    (msm_ispif_config hwreg_v2 idle_v3 ⟨VFE1, [⟨PIX0, [1], 1⟩, ⟨RDI0, [2, 5], 0⟩]⟩).1 = 0
    ∧ (∀ c, (msm_ispif_get_cids_mask_from_cfg ⟨RDI0, [2, 5], 0⟩).testBit c = true ↔ c ∈ [2, 5])
    ∧ msm_camera_io_r (cid_mask_reg hwreg_v2 VFE1 RDI0)
          (msm_ispif_config hwreg_v2 idle_v3 ⟨VFE1, [⟨PIX0, [1], 1⟩, ⟨RDI0, [2, 5], 0⟩]⟩).2
        = msm_camera_io_r (cid_mask_reg hwreg_v2 VFE1 RDI0) idle_v3
            ||| msm_ispif_get_cids_mask_from_cfg ⟨RDI0, [2, 5], 0⟩
    ∧ ∀ c ∈ [2, 5],
        (msm_camera_io_r (cid_mask_reg hwreg_v2 VFE1 RDI0)
          (msm_ispif_config hwreg_v2 idle_v3
            ⟨VFE1, [⟨PIX0, [1], 1⟩, ⟨RDI0, [2, 5], 0⟩]⟩).2).testBit c = true :=
  ⟨by decide,
   config_enables_cids hwreg_v2 idle_v3 VFE1 [⟨PIX0, [1], 1⟩, ⟨RDI0, [2, 5], 0⟩]
    ⟨RDI0, [2, 5], 0⟩ (Or.inr rfl) (by decide) (by decide) (by decide) (by decide) (by decide)⟩


/-- Evaluation of C6 on VFE0 of a V3 device whose lane RDI0 is busy: the request
[PIX0, RDI0, RDI1] fails with `-EBUSY` after processing PIX0 only. -/
theorem config_busy_witness :
    (msm_ispif_config hwreg_v2 rdi0_busy_v3
        ⟨VFE0, [⟨PIX0, [1], 1⟩] ++ ⟨RDI0, [2], 0⟩ :: [⟨RDI1, [3], 0⟩]⟩).1 = -EBUSY
    ∧ (msm_ispif_config hwreg_v2 rdi0_busy_v3
        ⟨VFE0, [⟨PIX0, [1], 1⟩] ++ ⟨RDI0, [2], 0⟩ :: [⟨RDI1, [3], 0⟩]⟩).2
        = (msm_ispif_config_loop hwreg_v2 VFE0 [⟨PIX0, [1], 1⟩]
            (msm_ispif_config_quiesce hwreg_v2 rdi0_busy_v3)).2
    ∧ ∀ x ∈ (⟨RDI0, [2], 0⟩ : msm_ispif_params_entry) :: [⟨RDI1, [3], 0⟩],
        msm_camera_io_r (cid_mask_reg hwreg_v2 VFE0 x.intftype)
            (msm_ispif_config hwreg_v2 rdi0_busy_v3
              ⟨VFE0, [⟨PIX0, [1], 1⟩] ++ ⟨RDI0, [2], 0⟩ :: [⟨RDI1, [3], 0⟩]⟩).2
          = msm_camera_io_r (cid_mask_reg hwreg_v2 VFE0 x.intftype) rdi0_busy_v3 :=
  config_busy hwreg_v2 rdi0_busy_v3 VFE0 [⟨PIX0, [1], 1⟩] ⟨RDI0, [2], 0⟩ [⟨RDI1, [3], 0⟩]
    (Or.inl rfl) (by decide) (by decide) (by decide) (by decide) (by decide) (by decide)

/-! ## Init -/

/-- C10: with power UP, `msm_ispif_init` returns `-EPERM` for every version
argument and leaves the whole device (every `sof_count` entry, both applied
command words of both VFEs, the stored version and the power state) exactly as
it was. -/
theorem init_already_up (hw : ispif_hwreg) (env : init_env) (s : ispif_device) (v : Nat)
    (hup : s.ispif_state = ispif_state_t.ISPIF_POWER_UP) :
    msm_ispif_init hw env s v = (-EPERM, s) := by
  unfold msm_ispif_init
  rw [if_pos hup]

/-- Evaluation of C10 on the device left by a successful init on V3. -/
theorem init_already_up_witness :
    init_done_v3.ispif_state = ispif_state_t.ISPIF_POWER_UP
    ∧ msm_ispif_init hwreg_v2 ⟨0, true, 0, 1⟩ init_done_v3 hwreg_v2.CSID_VERSION_V2
        = (-EPERM, init_done_v3) :=
  ⟨by decide, init_already_up hwreg_v2 ⟨0, true, 0, 1⟩ init_done_v3 _ (by decide)⟩

theorem clk_group_none (hw : ispif_hwreg) (v : Nat)
    (h1 : ¬ v < hw.CSID_VERSION_V2) (h2 : v ≠ hw.CSID_VERSION_V2)
    (h3 : v ≠ hw.CSID_VERSION_V3) : ispif_clk_group hw v = none := by
  simp [ispif_clk_group, h1, h2, h3]

theorem clk_group_some (hw : ispif_hwreg) (v : Nat)
    (h : v < hw.CSID_VERSION_V2 ∨ v = hw.CSID_VERSION_V2 ∨ v = hw.CSID_VERSION_V3) :
    ∃ g, ispif_clk_group hw v = some g := by
  unfold ispif_clk_group
  split_ifs
  · exact ⟨_, rfl⟩
  · exact ⟨_, rfl⟩
  · exact ⟨_, rfl⟩
  · omega

/-- With power DOWN and a version that is not supported, `msm_ispif_init` logs
the version and returns 0: no clock is touched, no register is written and the
power stays DOWN. -/
theorem init_unsupported_version (hw : ispif_hwreg) (env : init_env) (s : ispif_device)
    (v : Nat) (hdown : s.ispif_state = ispif_state_t.ISPIF_POWER_DOWN)
    (h1 : ¬ v < hw.CSID_VERSION_V2) (h2 : v ≠ hw.CSID_VERSION_V2)
    (h3 : v ≠ hw.CSID_VERSION_V3) :
    (msm_ispif_init hw env s v).1 = 0
    ∧ (msm_ispif_init hw env s v).2.ispif_state = ispif_state_t.ISPIF_POWER_DOWN
    ∧ (msm_ispif_init hw env s v).2.clk_refs = s.clk_refs
    ∧ (msm_ispif_init hw env s v).2.wlog = s.wlog
    ∧ (msm_ispif_init hw env s v).2.csid_version = v := by
  unfold msm_ispif_init
  rw [if_neg (by rw [hdown]; decide)]
  simp only [clk_group_none hw v h1 h2 h3]
  refine ⟨?_, ?_, ?_, ?_, ?_⟩ <;> first | exact hdown | trivial

/-- C8 (evaluation at the failing input): with power DOWN, `msm_ispif_init` on
the unsupported version `0x40000` (not below V2, not V2, not V3) enables no
clock and leaves power DOWN, but returns 0 instead of an error. -/
theorem init_unsupported_version_returns_zero :
    (msm_ispif_init hwreg_v2 ⟨0, true, 0, 1⟩ probe_device 0x40000).1 = 0
    ∧ (msm_ispif_init hwreg_v2 ⟨0, true, 0, 1⟩ probe_device 0x40000).2.ispif_state
        = ispif_state_t.ISPIF_POWER_DOWN
    ∧ (msm_ispif_init hwreg_v2 ⟨0, true, 0, 1⟩ probe_device 0x40000).2.clk_refs
        = probe_device.clk_refs
    ∧ (msm_ispif_init hwreg_v2 ⟨0, true, 0, 1⟩ probe_device 0x40000).2.wlog = probe_device.wlog
    ∧ (msm_ispif_init hwreg_v2 ⟨0, true, 0, 1⟩ probe_device 0x40000).2.csid_version = 0x40000 :=
  init_unsupported_version hwreg_v2 ⟨0, true, 0, 1⟩ probe_device 0x40000 rfl
    (by decide) (by decide) (by decide)

theorem wait_no_pending (lrc : Int) (s : ispif_device) (h : s.reset_complete = 0) :
    wait_for_completion_interruptible_timeout lrc s = (lrc, s) := by
  unfold wait_for_completion_interruptible_timeout
  rw [if_neg (by omega)]

theorem reset_cmd_fields (hw : ispif_hwreg) (s : ispif_device) :
    (msm_ispif_reset_cmd hw s).reset_complete = s.reset_complete
    ∧ (msm_ispif_reset_cmd hw s).csid_version = s.csid_version
    ∧ (msm_ispif_reset_cmd hw s).clk_refs = s.clk_refs
    ∧ (msm_ispif_reset_cmd hw s).base_mapped = s.base_mapped
    ∧ (msm_ispif_reset_cmd hw s).irq_requested = s.irq_requested
    ∧ (msm_ispif_reset_cmd hw s).ispif_state = s.ispif_state := by
  unfold msm_ispif_reset_cmd
  dsimp only
  split_ifs <;> exact ⟨rfl, rfl, rfl, rfl, rfl, rfl⟩

/-- The global reset leaves the version, the clocks, the mapping, the interrupt
line and the power state as they were. -/
theorem reset_fields (hw : ispif_hwreg) (lrc : Int) (s : ispif_device) :
    (msm_ispif_reset hw lrc s).2.csid_version = s.csid_version
    ∧ (msm_ispif_reset hw lrc s).2.clk_refs = s.clk_refs
    ∧ (msm_ispif_reset hw lrc s).2.base_mapped = s.base_mapped
    ∧ (msm_ispif_reset hw lrc s).2.irq_requested = s.irq_requested
    ∧ (msm_ispif_reset hw lrc s).2.ispif_state = s.ispif_state := by
  have hf := reset_cmd_fields hw s
  unfold msm_ispif_reset wait_for_completion_interruptible_timeout
  dsimp only
  split_ifs <;> exact hf.2

/-- The global reset on a re-armed completion: the result is decided by the
outcome of the wait. -/
theorem reset_rc_armed (hw : ispif_hwreg) (lrc : Int) (s : ispif_device) :
    (msm_ispif_reset hw lrc (init_completion s)).1
      = if lrc < 0 ∨ lrc = 0 then - EIO else 0 := by
  have hf := reset_cmd_fields hw (init_completion s)
  unfold msm_ispif_reset
  dsimp only
  rw [wait_no_pending lrc _ (hf.1.trans rfl)]
  dsimp only
  split_ifs <;> rfl

/-- With power DOWN, a supported version and clocks, mapping and interrupt
acquired, a reset wait that does not complete makes `msm_ispif_init` return
`-EIO` with everything released. -/
theorem init_timeout (hw : ispif_hwreg) (env : init_env) (s : ispif_device) (v : Nat)
    (hdown : s.ispif_state = ispif_state_t.ISPIF_POWER_DOWN)
    (hsup : v < hw.CSID_VERSION_V2 ∨ v = hw.CSID_VERSION_V2 ∨ v = hw.CSID_VERSION_V3)
    (hclk : env.clk_rc = 0) (hmap : env.ioremap_ok = true) (hirq : env.irq_rc = 0)
    (hlrc : env.lrc ≤ 0) :
    (msm_ispif_init hw env s v).1 = - EIO
    ∧ (msm_ispif_init hw env s v).2.ispif_state = ispif_state_t.ISPIF_POWER_DOWN
    ∧ (msm_ispif_init hw env s v).2.irq_requested = false
    ∧ (msm_ispif_init hw env s v).2.base_mapped = false
    ∧ (msm_ispif_init hw env s v).2.clk_refs = s.clk_refs := by
  obtain ⟨g, hg⟩ := clk_group_some hw v hsup
  have hl : env.lrc < 0 ∨ env.lrc = 0 := by omega
  unfold msm_ispif_init
  rw [if_neg (by rw [hdown]; decide)]
  simp only [hg, msm_cam_clk_enable, hclk, if_true, hmap, hirq, ne_eq, not_true_eq_false,
    if_false, Bool.true_eq_false, reset_rc_armed, hl]
  rw [if_neg (by simp [ EIO])]
  simp only [msm_ispif_init_error_irq, msm_ispif_init_error_clk, (reset_fields _ _ _).1,
    init_completion, hg, msm_cam_clk_enable]
  simp only [Bool.false_eq_true, if_false, (reset_fields _ _ _).2.1, (reset_fields _ _ _).2.2.2.2]
  refine ⟨trivial, hdown, trivial, trivial, ?_⟩
  funext c
  simp

/-- With power DOWN, a supported version, all resources acquired and the reset
completing, `msm_ispif_init` returns 0 and sets power UP. -/
theorem init_success (hw : ispif_hwreg) (env : init_env) (s : ispif_device) (v : Nat)
    (hdown : s.ispif_state = ispif_state_t.ISPIF_POWER_DOWN)
    (hsup : v < hw.CSID_VERSION_V2 ∨ v = hw.CSID_VERSION_V2 ∨ v = hw.CSID_VERSION_V3)
    (hclk : env.clk_rc = 0) (hmap : env.ioremap_ok = true) (hirq : env.irq_rc = 0)
    (hlrc : 0 < env.lrc) :
    (msm_ispif_init hw env s v).1 = 0
    ∧ (msm_ispif_init hw env s v).2.ispif_state = ispif_state_t.ISPIF_POWER_UP := by
  obtain ⟨g, hg⟩ := clk_group_some hw v hsup
  have hl : ¬ (env.lrc < 0 ∨ env.lrc = 0) := by omega
  unfold msm_ispif_init
  rw [if_neg (by rw [hdown]; decide)]
  simp only [hg, msm_cam_clk_enable, hclk, if_true, hmap, hirq, ne_eq, not_true_eq_false,
    if_false, Bool.true_eq_false, reset_rc_armed, hl]
  exact ⟨trivial, trivial⟩

/-- C9: for every supported version, if `msm_ispif_init` is called with power
DOWN, clock enable, register mapping and interrupt installation succeed, and the
reset completion never fires, then init returns `-EIO`, power stays DOWN, the
interrupt handler and the register mapping are released and every clock has the
reference count it had before the call; a second init whose resources are
acquired and whose reset completes returns 0 and sets power UP. -/
theorem init_reset_timeout_unwinds (hw : ispif_hwreg) (env env2 : init_env)
    (s : ispif_device) (v v2 : Nat)
    (hdown : s.ispif_state = ispif_state_t.ISPIF_POWER_DOWN)
    (hsup : v < hw.CSID_VERSION_V2 ∨ v = hw.CSID_VERSION_V2 ∨ v = hw.CSID_VERSION_V3)
    (hclk : env.clk_rc = 0) (hmap : env.ioremap_ok = true) (hirq : env.irq_rc = 0)
    (hlrc : env.lrc ≤ 0)
    (hsup2 : v2 < hw.CSID_VERSION_V2 ∨ v2 = hw.CSID_VERSION_V2 ∨ v2 = hw.CSID_VERSION_V3)
    (hclk2 : env2.clk_rc = 0) (hmap2 : env2.ioremap_ok = true) (hirq2 : env2.irq_rc = 0)
    (hlrc2 : 0 < env2.lrc) :
    (msm_ispif_init hw env s v).1 = - EIO
    ∧ (msm_ispif_init hw env s v).2.ispif_state = ispif_state_t.ISPIF_POWER_DOWN
    ∧ (msm_ispif_init hw env s v).2.irq_requested = false
    ∧ (msm_ispif_init hw env s v).2.base_mapped = false
    ∧ (msm_ispif_init hw env s v).2.clk_refs = s.clk_refs
    ∧ (msm_ispif_init hw env2 (msm_ispif_init hw env s v).2 v2).1 = 0
    ∧ (msm_ispif_init hw env2 (msm_ispif_init hw env s v).2 v2).2.ispif_state
        = ispif_state_t.ISPIF_POWER_UP := by
  have h1 := init_timeout hw env s v hdown hsup hclk hmap hirq hlrc
  have h2 := init_success hw env2 (msm_ispif_init hw env s v).2 v2 h1.2.1 hsup2 hclk2 hmap2
    hirq2 hlrc2
  exact ⟨h1.1, h1.2.1, h1.2.2.1, h1.2.2.2.1, h1.2.2.2.2, h2.1, h2.2⟩

/-- Evaluation of C9 on the probed device with version V3: the first init times
out, the second one (reset completing) succeeds. -/
theorem init_reset_timeout_unwinds_witness :
    (msm_ispif_init hwreg_v2 ⟨0, true, 0, 0⟩ probe_device hwreg_v2.CSID_VERSION_V3).1 = - EIO
    ∧ (msm_ispif_init hwreg_v2 ⟨0, true, 0, 0⟩ probe_device
        hwreg_v2.CSID_VERSION_V3).2.ispif_state = ispif_state_t.ISPIF_POWER_DOWN
    ∧ (msm_ispif_init hwreg_v2 ⟨0, true, 0, 0⟩ probe_device
        hwreg_v2.CSID_VERSION_V3).2.irq_requested = false
    ∧ (msm_ispif_init hwreg_v2 ⟨0, true, 0, 0⟩ probe_device
        hwreg_v2.CSID_VERSION_V3).2.base_mapped = false
    ∧ (msm_ispif_init hwreg_v2 ⟨0, true, 0, 0⟩ probe_device
        hwreg_v2.CSID_VERSION_V3).2.clk_refs = probe_device.clk_refs
    ∧ (msm_ispif_init hwreg_v2 ⟨0, true, 0, 1⟩
        (msm_ispif_init hwreg_v2 ⟨0, true, 0, 0⟩ probe_device hwreg_v2.CSID_VERSION_V3).2
        hwreg_v2.CSID_VERSION_V3).1 = 0
    ∧ (msm_ispif_init hwreg_v2 ⟨0, true, 0, 1⟩
        (msm_ispif_init hwreg_v2 ⟨0, true, 0, 0⟩ probe_device hwreg_v2.CSID_VERSION_V3).2
        hwreg_v2.CSID_VERSION_V3).2.ispif_state = ispif_state_t.ISPIF_POWER_UP :=
  init_reset_timeout_unwinds hwreg_v2 ⟨0, true, 0, 0⟩ ⟨0, true, 0, 1⟩ probe_device
    hwreg_v2.CSID_VERSION_V3 hwreg_v2.CSID_VERSION_V3 rfl (by decide) rfl rfl rfl (by decide)
    (by decide) rfl rfl rfl (by decide)


/-! ## Handles -/

theorem reset_open_cnt (hw : ispif_hwreg) (lrc : Int) (s : ispif_device) :
    (msm_ispif_reset hw lrc s).2.open_cnt = s.open_cnt := by
  unfold msm_ispif_reset wait_for_completion_interruptible_timeout msm_ispif_reset_cmd
  dsimp only
  split_ifs <;> rfl

theorem release_open_cnt (hw : ispif_hwreg) (lrc : Int) (s : ispif_device) :
    (msm_ispif_release hw lrc s).open_cnt = s.open_cnt := by
  unfold msm_ispif_release
  split_ifs
  · rfl
  · dsimp only
    unfold msm_ispif_init_error_clk
    dsimp only
    cases ispif_clk_group hw (msm_ispif_reset hw lrc s).2.csid_version with
    | none => exact reset_open_cnt hw lrc s
    | some g => exact reset_open_cnt hw lrc s

theorem handle_step_le_one (hw : ispif_hwreg) (s : ispif_device) (c : handle_call)
    (h : s.open_cnt ≤ 1) : (handle_step hw s c).open_cnt ≤ 1 := by
  cases c with
  | acquire =>
    unfold handle_step ispif_open_node
    split_ifs with h1
    · exact h
    · have : s.open_cnt = 0 := by omega
      simp [this]
  | release lrc =>
    unfold handle_step ispif_close_node
    dsimp only
    split_ifs with h1 h2
    · exact h
    · rw [release_open_cnt]
      dsimp only
      omega
    · dsimp only
      omega

theorem handle_run_le_one (hw : ispif_hwreg) (calls : List handle_call) :
    ∀ s : ispif_device, s.open_cnt ≤ 1 → (handle_run hw s calls).open_cnt ≤ 1 := by
  induction calls with
  | nil => intro s h; exact h
  | cons c cs ih =>
    intro s h
    unfold handle_run
    rw [List.foldl_cons]
    exact ih _ (handle_step_le_one hw s c h)

/-- C11 (amended): for every sequence of `ispif_open_node` and `ispif_close_node`
calls starting from `open_cnt = 0`, `open_cnt` is 0 or 1; `ispif_open_node`
returns 0 and leaves `open_cnt = 1` (it increments only from 0); a close with
`open_cnt = 1` returns 0, sets `open_cnt` to 0 and invokes `msm_ispif_release`;
a close with `open_cnt = 0` fails with `-ENODEV` and changes nothing. -/
theorem handle_count_saturates (hw : ispif_hwreg) (s : ispif_device)
    (calls : List handle_call) (h0 : s.open_cnt = 0) :
    (handle_run hw s calls).open_cnt ≤ 1
    ∧ (ispif_open_node (handle_run hw s calls)).1 = 0
    ∧ (ispif_open_node (handle_run hw s calls)).2.open_cnt = 1
    ∧ (∀ lrc, (handle_run hw s calls).open_cnt = 1 →
        ispif_close_node hw lrc (handle_run hw s calls)
          = (0, msm_ispif_release hw lrc { handle_run hw s calls with open_cnt := 0 }))
    ∧ (∀ lrc, (handle_run hw s calls).open_cnt = 0 →
        ispif_close_node hw lrc (handle_run hw s calls)
          = (-ENODEV, handle_run hw s calls)) := by
  have hle := handle_run_le_one hw calls s (by omega)
  refine ⟨hle, ?_, ?_, ?_, ?_⟩
  · unfold ispif_open_node
    split_ifs <;> rfl
  · unfold ispif_open_node
    split_ifs with h1
    · dsimp only; omega
    · have : (handle_run hw s calls).open_cnt = 0 := by omega
      simp [this]
  · intro lrc h1
    unfold ispif_close_node
    rw [if_neg (by omega)]
    dsimp only
    rw [if_pos (by omega)]
    simp [h1]
  · intro lrc h1
    unfold ispif_close_node
    rw [if_pos h1]

/-- Evaluation of the amended C11 on the probed device after two acquires and
one release. -/
theorem handle_count_saturates_witness :
    (handle_run hwreg_v2 probe_device [.acquire, .acquire, .release 1]).open_cnt ≤ 1
    ∧ (ispif_open_node
        (handle_run hwreg_v2 probe_device [.acquire, .acquire, .release 1])).1 = 0
    ∧ (ispif_open_node
        (handle_run hwreg_v2 probe_device [.acquire, .acquire, .release 1])).2.open_cnt = 1
    ∧ (∀ lrc, (handle_run hwreg_v2 probe_device [.acquire, .acquire, .release 1]).open_cnt = 1 →
        ispif_close_node hwreg_v2 lrc
            (handle_run hwreg_v2 probe_device [.acquire, .acquire, .release 1])
          = (0, msm_ispif_release hwreg_v2 lrc
              { handle_run hwreg_v2 probe_device [.acquire, .acquire, .release 1]
                  with open_cnt := 0 }))
    ∧ (∀ lrc, (handle_run hwreg_v2 probe_device [.acquire, .acquire, .release 1]).open_cnt = 0 →
        ispif_close_node hwreg_v2 lrc
            (handle_run hwreg_v2 probe_device [.acquire, .acquire, .release 1])
          = (-ENODEV, handle_run hwreg_v2 probe_device [.acquire, .acquire, .release 1])) :=
  handle_count_saturates hwreg_v2 probe_device [.acquire, .acquire, .release 1] rfl

/-- C11 as stated fails: starting from `open_cnt = 0`, after two
`ispif_open_node` calls (with a successful init in between) `open_cnt` is 1, not
2, and the first `ispif_close_node` returns 0, brings `open_cnt` to 0 and tears
the controller down (power DOWN) although one handle is still outstanding. -/
theorem first_release_tears_down :
    probe_device.open_cnt = 0
    ∧ two_openers_v3.open_cnt = 1
    ∧ two_openers_v3.ispif_state = ispif_state_t.ISPIF_POWER_UP
    ∧ (ispif_close_node hwreg_v2 1 two_openers_v3).1 = 0
    ∧ (ispif_close_node hwreg_v2 1 two_openers_v3).2.open_cnt = 0
    ∧ (ispif_close_node hwreg_v2 1 two_openers_v3).2.ispif_state
        = ispif_state_t.ISPIF_POWER_DOWN
    ∧ (ispif_close_node hwreg_v2 1 two_openers_v3).2.irq_requested = false := by
  decide

/-! ## Input select on V3 -/

theorem input_sel_spec_word_lt (r lane csid : Nat) (hcsid : csid ≤ 3) :
    input_sel_spec_word r lane csid < 4294967296 := by
  unfold input_sel_spec_word
  have hoff : input_sel_shift lane + 2 ≤ 32 := by
    unfold input_sel_shift; split_ifs <;> omega
  have h1 : r &&& not32 (3 <<< input_sel_shift lane) < 2 ^ 32 :=
    Nat.and_lt_two_pow r (by simpa using not32_lt (3 <<< input_sel_shift lane))
  have h2 : csid <<< input_sel_shift lane < 2 ^ 32 := by
    have := u32_shiftLeft_cmd csid (input_sel_shift lane) (by omega) hoff
    rw [← this]
    simpa using u32_lt (csid <<< input_sel_shift lane)
  simpa using Nat.or_lt_two_pow h1 h2

/-- On V3, `msm_ispif_sel_csid_core` composes the spec's word and writes it
unless it is zero. -/
theorem sel_csid_core_v3_eq (hw : ispif_hwreg) (s : ispif_device) (lane csid vfe : Nat)
    (hord : hw.CSID_VERSION_V2 < hw.CSID_VERSION_V3)
    (hv3 : s.csid_version = hw.CSID_VERSION_V3)
    (hvfe : vfe = VFE0 ∨ vfe = VFE1) (hlane : lane < INTF_MAX) (hcsid : csid ≤ 3) :
    msm_ispif_sel_csid_core hw s lane csid vfe
      = if input_sel_spec_word
            (msm_camera_io_r (hw.ISPIF_INPUT_SEL_ADDR + 0x200 * vfe) s) lane csid ≠ 0 then
          msm_camera_io_w
            (input_sel_spec_word
              (msm_camera_io_r (hw.ISPIF_INPUT_SEL_ADDR + 0x200 * vfe) s) lane csid)
            (hw.ISPIF_INPUT_SEL_ADDR + 0x200 * vfe) s
        else s := by
  have hv : vfe < 256 := by rcases hvfe with h | h <;> simp [h, VFE0, VFE1]
  have hl256 : lane < 256 := lt_trans hlane (by decide)
  have hnle : ¬ hw.CSID_VERSION_V3 ≤ hw.CSID_VERSION_V2 := by omega
  have hvalid : msm_ispif_is_intf_valid hw hw.CSID_VERSION_V3 vfe = true := by
    simp [msm_ispif_is_intf_valid, hnle]
  unfold msm_ispif_sel_csid_core
  simp only [u8_of_lt lane hl256, u8_of_lt csid (by omega), u8_of_lt vfe hv, hv3, hvalid,
    io_w_mb_eq, hnle, if_false, Bool.true_eq_false]
  unfold INTF_MAX at hlane
  have e1 : ((1 : Nat) <<< 5 ||| 1 <<< 4) = 3 <<< 4 := by decide
  have e2 : ((1 : Nat) <<< 9 ||| 1 <<< 8) = 3 <<< 8 := by decide
  have e3 : ((1 : Nat) <<< 13 ||| 1 <<< 12) = 3 <<< 12 := by decide
  have e4 : ((1 : Nat) <<< 21 ||| 1 <<< 20) = 3 <<< 20 := by decide
  interval_cases lane
  · have e0' : ((1 : Nat) <<< 1 ||| 1) = 3 := by decide
    simp [input_sel_spec_word, input_sel_shift, PIX0, e0']
  · simp [input_sel_spec_word, input_sel_shift, PIX0, RDI0, PIX1, RDI1, RDI2, e1]
  · simp [input_sel_spec_word, input_sel_shift, PIX0, RDI0, PIX1, RDI1, RDI2, e2]
  · simp [input_sel_spec_word, input_sel_shift, PIX0, RDI0, PIX1, RDI1, RDI2, e3]
  · simp [input_sel_spec_word, input_sel_shift, PIX0, RDI0, PIX1, RDI1, RDI2, e4]

/-- C12 (amended): on version V3, for every vfe, every lane, every csid source
in [0,3] and every prior value `r` of the input-select register at
`ISPIF_INPUT_SEL_ADDR + 0x200*vfe`: when the word
`(r AND NOT (3 << off)) OR (csid << off)` is not zero, after
`msm_ispif_sel_csid_core` the register holds it, so the lane's 2-bit field equals
`csid` and every other bit is unchanged; when that word is zero the function
writes nothing and the device is unchanged. -/
theorem sel_csid_core_input_sel (hw : ispif_hwreg) (s : ispif_device) (lane csid vfe : Nat)
    (hord : hw.CSID_VERSION_V2 < hw.CSID_VERSION_V3)
    (hv3 : s.csid_version = hw.CSID_VERSION_V3)
    (hvfe : vfe = VFE0 ∨ vfe = VFE1) (hlane : lane < INTF_MAX) (hcsid : csid ≤ 3) :
    (input_sel_spec_word
        (msm_camera_io_r (hw.ISPIF_INPUT_SEL_ADDR + 0x200 * vfe) s) lane csid ≠ 0 →
      msm_camera_io_r (hw.ISPIF_INPUT_SEL_ADDR + 0x200 * vfe)
          (msm_ispif_sel_csid_core hw s lane csid vfe)
        = input_sel_spec_word
            (msm_camera_io_r (hw.ISPIF_INPUT_SEL_ADDR + 0x200 * vfe) s) lane csid
      ∧ cmd_field
          (msm_camera_io_r (hw.ISPIF_INPUT_SEL_ADDR + 0x200 * vfe)
            (msm_ispif_sel_csid_core hw s lane csid vfe))
          (input_sel_shift lane) = csid
      ∧ ∀ j, j < 32 → ¬ (input_sel_shift lane ≤ j ∧ j < input_sel_shift lane + 2) →
          (msm_camera_io_r (hw.ISPIF_INPUT_SEL_ADDR + 0x200 * vfe)
            (msm_ispif_sel_csid_core hw s lane csid vfe)).testBit j
          = (msm_camera_io_r (hw.ISPIF_INPUT_SEL_ADDR + 0x200 * vfe) s).testBit j)
    ∧ (input_sel_spec_word
        (msm_camera_io_r (hw.ISPIF_INPUT_SEL_ADDR + 0x200 * vfe) s) lane csid = 0 →
      msm_ispif_sel_csid_core hw s lane csid vfe = s) := by
  have hoff : input_sel_shift lane + 2 ≤ 32 := by
    unfold input_sel_shift; split_ifs <;> omega
  have hu : u32 (csid <<< input_sel_shift lane) = csid <<< input_sel_shift lane :=
    u32_shiftLeft_cmd csid (input_sel_shift lane) (by omega) hoff
  rw [sel_csid_core_v3_eq hw s lane csid vfe hord hv3 hvfe hlane hcsid]
  constructor
  · intro hnz
    rw [if_pos hnz, io_r_io_w_same, u32_of_lt _ (input_sel_spec_word_lt _ lane csid hcsid)]
    refine ⟨rfl, ?_, ?_⟩
    · unfold input_sel_spec_word cmd_field
      rw [← hu]
      exact field_merge _ _ csid (by omega) hoff
    · intro j hj hout
      unfold input_sel_spec_word
      rw [← hu, testBit_merge _ _ csid j (by omega) hj, if_neg hout]
  · intro hz
    rw [if_neg (by simp [hz])]

/-- Evaluation of the amended C12 on VFE1 of a V3 device whose registers read
`0x2F`: selecting CSID 2 for lane RDI1 (field at bit 12). -/
theorem sel_csid_core_input_sel_witness :
    (input_sel_spec_word
        (msm_camera_io_r (hwreg_v2.ISPIF_INPUT_SEL_ADDR + 0x200 * VFE1) idle_v3) RDI1 2 ≠ 0 →
      msm_camera_io_r (hwreg_v2.ISPIF_INPUT_SEL_ADDR + 0x200 * VFE1)
          (msm_ispif_sel_csid_core hwreg_v2 idle_v3 RDI1 2 VFE1)
        = input_sel_spec_word
            (msm_camera_io_r (hwreg_v2.ISPIF_INPUT_SEL_ADDR + 0x200 * VFE1) idle_v3) RDI1 2
      ∧ cmd_field
          (msm_camera_io_r (hwreg_v2.ISPIF_INPUT_SEL_ADDR + 0x200 * VFE1)
            (msm_ispif_sel_csid_core hwreg_v2 idle_v3 RDI1 2 VFE1))
          (input_sel_shift RDI1) = 2
      ∧ ∀ j, j < 32 → ¬ (input_sel_shift RDI1 ≤ j ∧ j < input_sel_shift RDI1 + 2) →
          (msm_camera_io_r (hwreg_v2.ISPIF_INPUT_SEL_ADDR + 0x200 * VFE1)
            (msm_ispif_sel_csid_core hwreg_v2 idle_v3 RDI1 2 VFE1)).testBit j
          = (msm_camera_io_r (hwreg_v2.ISPIF_INPUT_SEL_ADDR + 0x200 * VFE1) idle_v3).testBit j)
    ∧ (input_sel_spec_word
        (msm_camera_io_r (hwreg_v2.ISPIF_INPUT_SEL_ADDR + 0x200 * VFE1) idle_v3) RDI1 2 = 0 →
      msm_ispif_sel_csid_core hwreg_v2 idle_v3 RDI1 2 VFE1 = idle_v3) :=
  sel_csid_core_input_sel hwreg_v2 idle_v3 RDI1 2 VFE1 (by decide) (by decide) (Or.inr rfl)
    (by decide) (by decide)

/-- C12 as stated fails when the composed word is zero: with the input-select
register of VFE0 reading 1, selecting CSID 0 for lane PIX0 composes the word 0,
no write is made, and the register still reads 1 (the PIX0 field is 1, not 0). -/
theorem sel_csid_core_skips_zero_word :
    input_sel_one_v3.csid_version = hwreg_v2.CSID_VERSION_V3
    ∧ msm_camera_io_r (hwreg_v2.ISPIF_INPUT_SEL_ADDR + 0x200 * VFE0) input_sel_one_v3 = 1
    ∧ input_sel_spec_word 1 PIX0 0 = 0
    ∧ msm_camera_io_r (hwreg_v2.ISPIF_INPUT_SEL_ADDR + 0x200 * VFE0)
        (msm_ispif_sel_csid_core hwreg_v2 input_sel_one_v3 PIX0 0 VFE0) = 1
    ∧ cmd_field
        (msm_camera_io_r (hwreg_v2.ISPIF_INPUT_SEL_ADDR + 0x200 * VFE0)
          (msm_ispif_sel_csid_core hwreg_v2 input_sel_one_v3 PIX0 0 VFE0))
        (input_sel_shift PIX0) = 1
    ∧ (msm_ispif_sel_csid_core hwreg_v2 input_sel_one_v3 PIX0 0 VFE0).wlog
        = input_sel_one_v3.wlog := by
  decide

/-! ## Interrupt reactor -/

@[simp] theorem io_w_sof_count (d a : Nat) (s : ispif_device) :
    (msm_camera_io_w d a s).sof_count = s.sof_count := rfl

@[simp] theorem io_w_reset_complete (d a : Nat) (s : ispif_device) :
    (msm_camera_io_w d a s).reset_complete = s.reset_complete := rfl

theorem read_irq_bank_sof_count (hw : ispif_hwreg) (bank : Nat) (s : ispif_device) :
    (read_irq_bank hw bank s).2.sof_count = s.sof_count := rfl

/-- What `ispif_process_irq` does to the counters: in the bank `vfe_id`, PIX0 and
RDI0 count the start-of-frame bits of the primary status, RDI1 those of the
secondary and RDI2 those of the tertiary status, each by one; PIX1 and every
other bank are left alone. -/
theorem process_irq_counts (hw : ispif_hwreg) (s : ispif_device)
    (out : Nat → ispif_irq_status) (vfe_id : Nat) :
    (ispif_process_irq hw s out vfe_id).sof_count vfe_id PIX0
        = s.sof_count vfe_id PIX0
          + (if (out vfe_id).ispifIrqStatus0 &&& hw.ISPIF_IRQ_STATUS_PIX_SOF_MASK ≠ 0
              then 1 else 0)
    ∧ (ispif_process_irq hw s out vfe_id).sof_count vfe_id RDI0
        = s.sof_count vfe_id RDI0
          + (if (out vfe_id).ispifIrqStatus0 &&& hw.ISPIF_IRQ_STATUS_RDI0_SOF_MASK ≠ 0
              then 1 else 0)
    ∧ (ispif_process_irq hw s out vfe_id).sof_count vfe_id RDI1
        = s.sof_count vfe_id RDI1
          + (if (out vfe_id).ispifIrqStatus1 &&& hw.ISPIF_IRQ_STATUS_RDI1_SOF_MASK ≠ 0
              then 1 else 0)
    ∧ (ispif_process_irq hw s out vfe_id).sof_count vfe_id RDI2
        = s.sof_count vfe_id RDI2
          + (if (out vfe_id).ispifIrqStatus2 &&& hw.ISPIF_IRQ_STATUS_RDI2_SOF_MASK ≠ 0
              then 1 else 0)
    ∧ (ispif_process_irq hw s out vfe_id).sof_count vfe_id PIX1 = s.sof_count vfe_id PIX1
    ∧ ∀ v, v ≠ vfe_id → ∀ l,
        (ispif_process_irq hw s out vfe_id).sof_count v l = s.sof_count v l := by
  unfold ispif_process_irq
  dsimp only
  refine ⟨?_, ?_, ?_, ?_, ?_, ?_⟩
  · split_ifs <;> simp [sof_cnt_incr, PIX0, RDI0, RDI1, RDI2]
  · split_ifs <;> simp [sof_cnt_incr, PIX0, RDI0, RDI1, RDI2]
  · split_ifs <;> simp [sof_cnt_incr, PIX0, RDI0, RDI1, RDI2]
  · split_ifs <;> simp [sof_cnt_incr, PIX0, RDI0, RDI1, RDI2]
  · split_ifs <;> simp [sof_cnt_incr, PIX0, RDI0, RDI1, RDI2, PIX1]
  · intro v hv l
    split_ifs <;> simp [sof_cnt_incr, Function.update_noteq hv]

/-- The VFE0 bank is guarded: when the primary status of VFE0 has no bit of
`ISPIF_IRQ_STATUS_MASK`, one run of the reader changes no counter of VFE0. -/
theorem read_irq_status_vfe0_guarded (hw : ispif_hwreg) (out : Nat → ispif_irq_status)
    (s : ispif_device)
    (h : msm_camera_io_r hw.ISPIF_IRQ_STATUS_ADDR s &&& hw.ISPIF_IRQ_STATUS_MASK = 0) :
    ∀ l, (msm_ispif_read_irq_status hw out s).2.sof_count VFE0 l = s.sof_count VFE0 l := by
  intro l
  have hst : (read_irq_bank hw 0 s).1.ispifIrqStatus0
      = msm_camera_io_r hw.ISPIF_IRQ_STATUS_ADDR s := rfl
  unfold msm_ispif_read_irq_status
  simp only [Function.update_same, hst, h, ne_eq, not_true_eq_false, if_false, io_w_mb_eq,
    io_w_sof_count]
  split_ifs
  · dsimp only
    rw [(process_irq_counts hw _ _ VFE1).2.2.2.2.2 VFE0 (by decide) l]
    rfl
  · rfl

/-- C13 (evaluation at the failing input): on a V3 device where, in both banks,
the primary status is 0 and the secondary status has an RDI1 start-of-frame bit,
one run of `msm_ispif_read_irq_status` leaves `sof_count[VFE0][RDI1]` unchanged
(the VFE0 bank is guarded by the status mask) but increments
`sof_count[VFE1][RDI1]`, although the primary status of VFE1 AND the status mask
is zero. -/
theorem vfe1_counts_without_status_mask :
    rdi1_sof_only_v3.csid_version = hwreg_v2.CSID_VERSION_V3
    ∧ ((msm_ispif_read_irq_status hwreg_v2 (fun _ => ⟨0, 0, 0⟩) rdi1_sof_only_v3).1
          VFE0).ispifIrqStatus0 &&& hwreg_v2.ISPIF_IRQ_STATUS_MASK = 0
    ∧ ((msm_ispif_read_irq_status hwreg_v2 (fun _ => ⟨0, 0, 0⟩) rdi1_sof_only_v3).1
          VFE1).ispifIrqStatus0 &&& hwreg_v2.ISPIF_IRQ_STATUS_MASK = 0
    ∧ rdi1_sof_only_v3.sof_count VFE0 RDI1 = 0
    ∧ rdi1_sof_only_v3.sof_count VFE1 RDI1 = 0
    ∧ (msm_ispif_read_irq_status hwreg_v2 (fun _ => ⟨0, 0, 0⟩) rdi1_sof_only_v3).2.sof_count
          VFE0 RDI1 = 0
    ∧ (msm_ispif_read_irq_status hwreg_v2 (fun _ => ⟨0, 0, 0⟩) rdi1_sof_only_v3).2.sof_count
          VFE1 RDI1 = 1 := by
  decide

/-! ## Reset requests and the completion -/

theorem intf_reset_entry_reset_complete (hw : ispif_hwreg) (vfe : Nat)
    (acc : ispif_device × Nat × Int) (e : msm_ispif_params_entry) :
    (msm_ispif_intf_reset_entry hw vfe acc e).1.reset_complete = acc.1.reset_complete := by
  unfold msm_ispif_intf_reset_entry
  dsimp only
  split_ifs <;> rfl

theorem intf_reset_fold_reset_complete (hw : ispif_hwreg) (vfe : Nat)
    (es : List msm_ispif_params_entry) :
    ∀ acc : ispif_device × Nat × Int,
      (es.foldl (msm_ispif_intf_reset_entry hw vfe) acc).1.reset_complete
        = acc.1.reset_complete := by
  induction es with
  | nil => intro acc; rfl
  | cons e es ih =>
    intro acc
    rw [List.foldl_cons, ih, intf_reset_entry_reset_complete]

/-- Neither reset function re-arms the completion: at the moment the reset
command is written, the number of pending completions is the one the device had
before the call. -/
theorem reset_cmd_never_rearms (hw : ispif_hwreg) (s : ispif_device)
    (params : msm_ispif_param_data) :
    (msm_ispif_intf_reset_cmd hw s params).reset_complete = s.reset_complete
    ∧ (msm_ispif_reset_cmd hw s).reset_complete = s.reset_complete := by
  have hf := intf_reset_fold_reset_complete hw params.vfe_intf params.entries
    (s, hw.STROBED_RST_EN, 0)
  refine ⟨?_, (reset_cmd_fields hw s).1⟩
  unfold msm_ispif_intf_reset_cmd
  dsimp only
  split_ifs <;> simpa using hf

/-- `msm_ispif_intf_reset` is the wait on the device left by
`msm_ispif_intf_reset_cmd` (when a reset word was written). -/
theorem intf_reset_eq_wait (hw : ispif_hwreg) (lrc : Int) (s : ispif_device)
    (params : msm_ispif_param_data)
    (hdata : (params.entries.foldl (msm_ispif_intf_reset_entry hw params.vfe_intf)
      (s, hw.STROBED_RST_EN, 0)).2.1 > 0x1) :
    (msm_ispif_intf_reset hw lrc s params).2
      = (wait_for_completion_interruptible_timeout lrc
          (msm_ispif_intf_reset_cmd hw s params)).2 := by
  unfold msm_ispif_intf_reset msm_ispif_intf_reset_cmd
  dsimp only
  rw [if_pos hdata, if_pos hdata]
  split_ifs <;> rfl

theorem wait_pending (lrc : Int) (s : ispif_device) (h : 0 < s.reset_complete) :
    (wait_for_completion_interruptible_timeout lrc s).1 = 1 := by
  unfold wait_for_completion_interruptible_timeout
  rw [if_pos h]

/-- A pending completion satisfies the wait of the global reset whatever
happens during the wait. -/
theorem reset_stale_completion (hw : ispif_hwreg) (lrc : Int) (s : ispif_device)
    (h : 0 < s.reset_complete) : (msm_ispif_reset hw lrc s).1 = 0 := by
  have hw1 := wait_pending lrc (msm_ispif_reset_cmd hw s)
    (by rw [(reset_cmd_fields hw s).1]; exact h)
  unfold msm_ispif_reset
  dsimp only
  rw [hw1, if_neg (by decide)]

/-- C14 (evaluation at the failing input): after a successful init on V3, a
`start_frame_boundary` whose wait times out (`-EIO`) and a late reset-done
interrupt, the completion holds one pending completion. At the moment the next
`msm_ispif_intf_reset` writes the reset command it is still pending, and that
`start_frame_boundary` returns 0 although no completion fires during its wait;
the same holds at the reset write of `msm_ispif_reset` (release path). -/
theorem stale_completion_satisfies_reset :
    init_done_v3.reset_complete = 0
    ∧ (msm_ispif_start_frame_boundary hwreg_v2 0 init_done_v3 rdi0_request).1 = - EIO
    ∧ late_reset_done_v3.reset_complete = 1
    ∧ (msm_ispif_intf_reset_cmd hwreg_v2 late_reset_done_v3 rdi0_request).reset_complete = 1
    ∧ (msm_ispif_intf_reset_cmd hwreg_v2 late_reset_done_v3 rdi0_request).wlog
        = late_reset_done_v3.wlog ++ [(hwreg_v2.ISPIF_RST_CMD_ADDR, 0xC1)]
    ∧ (msm_ispif_start_frame_boundary hwreg_v2 0 late_reset_done_v3 rdi0_request).1 = 0
    ∧ (msm_ispif_reset_cmd hwreg_v2 late_reset_done_v3).reset_complete = 1
    ∧ (msm_ispif_reset hwreg_v2 0 late_reset_done_v3).1 = 0 := by
  decide

end Ispif
